import Mathlib

/-!
# SMPTE timecode conversion (package timecode, file timecode.go)

A shallow embedding of the Go package: the frame-rate enumeration, the
`TimeCode` tuple, the per-rate validity predicates, linearization
(`ParseIntSmpte*`), delinearization (`formatTimeCodeSmpte*`), the text parser
(`parseSmpte`, a regular expression followed by `strconv.Atoi`) and the public
operations `ParseTimeCode`, `ParseInt`, `FormatString` and `ParseDuration`.

Conventions of the embedding.

* Go `int` is modelled by `Int`.  Go division and remainder truncate toward
  zero, so `/` and `%` of the source are `Int.tdiv` and `Int.tmod`.  No
  operation overflows a machine integer on the inputs the theorems range
  over: parsed fields lie in 0..99, the non-drop formatters keep every
  intermediate value between 0 and the count when the count is non-negative,
  and the drop-frame formatter is studied on counts of at most one day.
* Go `string` is modelled by `List Char`.  The grammar accepts ASCII digits
  and three ASCII separators only, so a text with any other byte is rejected
  whatever its encoding.
* A Go result pair `(int, error)` is modelled by a Lean pair whose second
  component is `Option GoError` (`none` is the nil error).  A result pair
  `(*TimeCode, error)`, which the source fills as `(nil, err)` or `(tm, nil)`
  and no other way, is modelled by `Except GoError TimeCode`.
-/

namespace Timecode

/-- Go strings, as lists of characters. -/
abbrev GoString := List Char

/-- Go integer division: truncates toward zero. -/
def goDiv (a b : Int) : Int := Int.tdiv a b

/-- Go integer remainder: has the sign of the dividend. -/
def goMod (a b : Int) : Int := Int.tmod a b

/-- Error values: `errors.New msg`, and the `*strconv.NumError` that
`strconv.Atoi` returns (function name, offending text, cause). -/
inductive GoError where
  | errorsNew (msg : String)
  | numError (func : String) (num : GoString) (cause : String)
  deriving DecidableEq, Repr

/-- The error of a text that does not match the grammar. -/
def errInvalidValue : GoError := GoError.errorsNew "invalid value"

/-- The error of a tuple outside the ranges of the rate. -/
def errOutOfRange : GoError := GoError.errorsNew "value out of range"

/-- The error of a frame rate outside the six enumerated ones. -/
def errInvalidFrameRate : GoError := GoError.errorsNew "invalid frame rate"

/-! ## Frame rates -/

/-- Source: `type FrameRate int`. -/
abbrev FrameRate := Int

/-- Rate 23.98 (value 0 of the iota block). -/
def SMPTE2398 : FrameRate := 0
/-- Rate 24. -/
def SMPTE24 : FrameRate := 1
/-- Rate 25. -/
def SMPTE25 : FrameRate := 2
/-- Rate 29.97 drop frame. -/
def SMPTE2997DROP : FrameRate := 3
/-- Rate 29.97 non drop frame. -/
def SMPTE2997NONDROP : FrameRate := 4
/-- Rate 30. -/
def SMPTE30 : FrameRate := 5

/-- Source: `func (fr FrameRate) String() string`. -/
def FrameRate.String (fr : FrameRate) : GoString :=
  if fr = SMPTE2398 then "SMPTE2398".toList
  else if fr = SMPTE24 then "SMPTE24".toList
  else if fr = SMPTE25 then "SMPTE25".toList
  else if fr = SMPTE2997DROP then "SMPTE2997DROP".toList
  else if fr = SMPTE2997NONDROP then "SMPTE2997NONDROP".toList
  else if fr = SMPTE30 then "SMPTE30".toList
  else "UnKnown".toList

/-! ## The TimeCode tuple -/

/-- Source: `type TimeCode struct { hh, mm, ss, ff int }`. -/
structure TimeCode where
  hh : Int
  mm : Int
  ss : Int
  ff : Int
  deriving DecidableEq, Repr

/-- Source: `GetHours`. -/
def TimeCode.GetHours (tm : TimeCode) : Int := tm.hh
/-- Source: `GetMinutes`. -/
def TimeCode.GetMinutes (tm : TimeCode) : Int := tm.mm
/-- Source: `GetSeconds`. -/
def TimeCode.GetSeconds (tm : TimeCode) : Int := tm.ss
/-- Source: `GetFrames`. -/
def TimeCode.GetFrames (tm : TimeCode) : Int := tm.ff

/-! ## Linearization -/

/-- Source: `ParseIntSmpte2398`. -/
def TimeCode.ParseIntSmpte2398 (tm : TimeCode) : Int :=
  let hours := tm.hh
  let minutes := tm.mm
  let seconds := tm.ss
  let frames := tm.ff
  frames + (24 * seconds) + (1440 * minutes) + (86400 * hours)

/-- Source: `ParseIntSmpte24`. -/
def TimeCode.ParseIntSmpte24 (tm : TimeCode) : Int :=
  let hours := tm.hh
  let minutes := tm.mm
  let seconds := tm.ss
  let frames := tm.ff
  frames + (24 * seconds) + (1440 * minutes) + (86400 * hours)

/-- Source: `ParseIntSmpte25`. -/
def TimeCode.ParseIntSmpte25 (tm : TimeCode) : Int :=
  let hours := tm.hh
  let minutes := tm.mm
  let seconds := tm.ss
  let frames := tm.ff
  frames + (25 * seconds) + (1500 * minutes) + (90000 * hours)

/-- Source: `ParseIntSmpte2997Drop`; the conditional assignment `frames = 2`
is the rebinding of `frames`. -/
def TimeCode.ParseIntSmpte2997Drop (tm : TimeCode) : Int :=
  let hours := tm.hh
  let minutes := tm.mm
  let seconds := tm.ss
  let frames := tm.ff
  let frames :=
    if goMod minutes 10 ≠ 0 ∧ seconds = 0 ∧ (frames = 0 ∨ frames = 1) then 2 else frames
  frames + (30 * seconds) + (1798 * minutes) + ((2 * (goDiv minutes 10)) + (107892 * hours))

/-- Source: `ParseIntSmpte2997NonDrop`. -/
def TimeCode.ParseIntSmpte2997NonDrop (tm : TimeCode) : Int :=
  let hours := tm.hh
  let minutes := tm.mm
  let seconds := tm.ss
  let frames := tm.ff
  frames + (30 * seconds) + (1800 * minutes) + (108000 * hours)

/-- Source: `ParseIntSmpte30`. -/
def TimeCode.ParseIntSmpte30 (tm : TimeCode) : Int :=
  let hours := tm.hh
  let minutes := tm.mm
  let seconds := tm.ss
  let frames := tm.ff
  frames + (30 * seconds) + (1800 * minutes) + (108000 * hours)

/-! ## Validity predicates -/

/-- Source: `IsValidSmpte2398`. -/
def TimeCode.IsValidSmpte2398 (tm : TimeCode) : Bool :=
  if (tm.hh ≥ 0 ∧ tm.hh ≤ 23) ∧ (tm.mm ≥ 0 ∧ tm.mm ≤ 59) ∧ (tm.ss ≥ 0 ∧ tm.ss ≤ 59)
      ∧ (tm.ff ≥ 0 ∧ tm.ff ≤ 23) then true
  else false

/-- Source: `IsValidSmpte24`. -/
def TimeCode.IsValidSmpte24 (tm : TimeCode) : Bool :=
  if (tm.hh ≥ 0 ∧ tm.hh ≤ 23) ∧ (tm.mm ≥ 0 ∧ tm.mm ≤ 59) ∧ (tm.ss ≥ 0 ∧ tm.ss ≤ 59)
      ∧ (tm.ff ≥ 0 ∧ tm.ff ≤ 23) then true
  else false

/-- Source: `IsValidSmpte25`. -/
def TimeCode.IsValidSmpte25 (tm : TimeCode) : Bool :=
  if (tm.hh ≥ 0 ∧ tm.hh ≤ 23) ∧ (tm.mm ≥ 0 ∧ tm.mm ≤ 59) ∧ (tm.ss ≥ 0 ∧ tm.ss ≤ 59)
      ∧ (tm.ff ≥ 0 ∧ tm.ff ≤ 24) then true
  else false

/-- Source: `IsValidSmpte2997Drop`. -/
def TimeCode.IsValidSmpte2997Drop (tm : TimeCode) : Bool :=
  if (tm.hh ≥ 0 ∧ tm.hh ≤ 23) ∧ (tm.mm ≥ 0 ∧ tm.mm ≤ 59) ∧ (tm.ss ≥ 0 ∧ tm.ss ≤ 59)
      ∧ (tm.ff ≥ 0 ∧ tm.ff ≤ 29) then true
  else false

/-- Source: `IsValidSmpte2997NonDrop`. -/
def TimeCode.IsValidSmpte2997NonDrop (tm : TimeCode) : Bool :=
  if (tm.hh ≥ 0 ∧ tm.hh ≤ 23) ∧ (tm.mm ≥ 0 ∧ tm.mm ≤ 59) ∧ (tm.ss ≥ 0 ∧ tm.ss ≤ 59)
      ∧ (tm.ff ≥ 0 ∧ tm.ff ≤ 29) then true
  else false

/-- Source: `IsValidSmpte30`. -/
def TimeCode.IsValidSmpte30 (tm : TimeCode) : Bool :=
  if (tm.hh ≥ 0 ∧ tm.hh ≤ 23) ∧ (tm.mm ≥ 0 ∧ tm.mm ≤ 59) ∧ (tm.ss ≥ 0 ∧ tm.ss ≤ 59)
      ∧ (tm.ff ≥ 0 ∧ tm.ff ≤ 29) then true
  else false

/-- Source: `func (tm *TimeCode) IsValid(frameRate FrameRate) bool`. -/
def TimeCode.IsValid (tm : TimeCode) (frameRate : FrameRate) : Bool :=
  if frameRate = SMPTE2398 then
    (if tm.IsValidSmpte2398 then true else false)
  else if frameRate = SMPTE24 then
    (if tm.IsValidSmpte24 then true else false)
  else if frameRate = SMPTE25 then
    (if tm.IsValidSmpte25 then true else false)
  else if frameRate = SMPTE2997DROP then
    (if tm.IsValidSmpte2997Drop then true else false)
  else if frameRate = SMPTE2997NONDROP then
    (if tm.IsValidSmpte2997NonDrop then true else false)
  else if frameRate = SMPTE30 then
    (if tm.IsValidSmpte30 then true else false)
  else false

/-! ## The grammar: a regular expression with capture groups

The source compiles, once, the expression

    ^(?P<hours>\d{1,2}):(?P<minutes>\d{1,2}):(?P<seconds>\d{1,2})(?::|;|\.)(?P<frames>\d{1,2})$

and calls `FindStringSubmatch`.  The constructs the expression uses are
embedded as a small syntax with a backtracking matcher that prefers the
first alternative and the longer repetition, which is the leftmost-first
semantics of Go regular expressions. -/

/-- Regular expressions, restricted to the constructs of the grammar. -/
inductive Re where
  | digit                      -- the class \d, the ASCII digits
  | lit (c : Char)             -- one literal character
  | seq (a b : Re)             -- concatenation
  | alt (a b : Re)             -- alternation, first alternative preferred
  | opt (a : Re)               -- greedy optional
  | group (i : Nat) (a : Re)   -- capture group number i
  deriving Repr

/-- The class `\d` of Go regular expressions: ASCII `0` to `9`. -/
def isAsciiDigit (c : Char) : Bool := decide (48 ≤ c.toNat) && decide (c.toNat ≤ 57)

/-- Capture table: group number and captured text, most recent first. -/
abbrev Caps := List (Nat × GoString)

/-- Ordered choice: the first way of matching when it succeeds, else the
second. -/
def firstSome (x y : Option Caps) : Option Caps :=
  match x with
  | some r => some r
  | none => y

/-- Backtracking matcher in continuation style: `run r s caps k` matches a
prefix of `s` against `r` and hands the rest of the input and the captures
to `k`; when `k` fails the next way of matching `r` is tried. -/
def Re.run : Re → GoString → Caps → (GoString → Caps → Option Caps) → Option Caps
  | .digit, s, caps, k =>
    match s with
    | [] => none
    | c :: cs => if isAsciiDigit c then k cs caps else none
  | .lit a, s, caps, k =>
    match s with
    | [] => none
    | c :: cs => if c = a then k cs caps else none
  | .seq a b, s, caps, k => a.run s caps (fun s1 caps1 => b.run s1 caps1 k)
  | .alt a b, s, caps, k => firstSome (a.run s caps k) (b.run s caps k)
  | .opt a, s, caps, k => firstSome (a.run s caps k) (k s caps)
  | .group i a, s, caps, k =>
    a.run s caps (fun s1 caps1 => k s1 ((i, s.take (s.length - s1.length)) :: caps1))

/-- The repetition `\d{1,2}`: one digit and, greedily, a second one. -/
def digits12 : Re := .seq .digit (.opt .digit)

/-- The non-capturing group `(?::|;|\.)`, the separator before the frames. -/
def sepRe : Re := .alt (.lit ':') (.alt (.lit ';') (.lit '.'))

/-- The body of the expression, between the anchors `^` and `$`. -/
def smpteRe : Re :=
  .seq (.group 1 digits12) (.seq (.lit ':')
    (.seq (.group 2 digits12) (.seq (.lit ':')
      (.seq (.group 3 digits12)
        (.seq sepRe (.group 4 digits12))))))

/-- The final continuation, the anchor `$`: succeeds only when no input is
left. -/
def atEnd : GoString → Caps → Option Caps :=
  fun rest caps => if rest = [] then some caps else none

/-- Text captured by group `i`: the latest entry of the table, the empty
string when the group took no part in the match. -/
def capture (caps : Caps) (i : Nat) : GoString :=
  match caps.find? (fun p => p.1 == i) with
  | some p => p.2
  | none => []

/-- Source: `regexpObject.FindStringSubmatch(s)`.  The anchor `^` (no
multi-line flag) admits a match at the start of the text only and `$`
requires it to end at the end of the text, so the whole match, entry 0 of
the result, is `s` itself; entries 1 to 4 are the capture groups.  `none`
is the nil slice. -/
def FindStringSubmatch (s : GoString) : Option (List GoString) :=
  match smpteRe.run s [] atEnd with
  | none => none
  | some caps => some [s, capture caps 1, capture caps 2, capture caps 3, capture caps 4]

/-- Source: `regexpObject.SubexpNames()`; entry 0 is the whole match, the
non-capturing separator group has no entry. -/
def SubexpNames : List String := ["", "hours", "minutes", "seconds", "frames"]

/-- Go map lookup `captures[name]`, the empty string for a missing key. -/
def mapGet (captures : List (String × GoString)) (name : String) : GoString :=
  match captures.find? (fun p => p.1 == name) with
  | some p => p.2
  | none => []

/-- Source: `strconv.Atoi`: an optional sign, then one or more ASCII
digits; the value is range-checked against a 64-bit `int`.  The source
ignores the integer returned next to an error, so the result is a sum. -/
def Atoi (s : GoString) : Except GoError Int :=
  let body : GoString :=
    if s.head? = some '-' ∨ s.head? = some '+' then s.tail else s
  if body = [] ∨ ¬ body.all isAsciiDigit = true then
    .error (GoError.numError "Atoi" s "invalid syntax")
  else
    let mag : Int := body.foldl (fun acc c => acc * 10 + ((c.toNat : Int) - 48)) 0
    let v : Int := if s.head? = some '-' then -mag else mag
    if v < -9223372036854775808 ∨ 9223372036854775807 < v then
      .error (GoError.numError "Atoi" s "value out of range")
    else .ok v

/-- Source: `parseSmpte`. -/
def parseSmpte (s : GoString) : Except GoError TimeCode :=
  match FindStringSubmatch s with
  | none => .error (GoError.errorsNew "invalid value")
  | some m =>
    let captures : List (String × GoString) :=
      SubexpNames.enum.foldl
        (fun caps p => if p.1 > 0 ∧ p.1 ≤ m.length then (p.2, m.getD p.1 []) :: caps else caps) []
    match Atoi (mapGet captures "hours") with
    | .error err => .error err
    | .ok hh =>
      match Atoi (mapGet captures "minutes") with
      | .error err => .error err
      | .ok mm =>
        match Atoi (mapGet captures "seconds") with
        | .error err => .error err
        | .ok ss =>
          match Atoi (mapGet captures "frames") with
          | .error err => .error err
          | .ok ff => .ok (TimeCode.mk hh mm ss ff)

/-- Source: `func IsValid(s string) bool`. -/
def IsValid (s : GoString) : Bool :=
  match parseSmpte s with
  | .error _ => false
  | .ok _ => true

/-- Source: `parseTimeCode`. -/
def parseTimeCode (s : GoString) (frameRate : FrameRate) : Except GoError TimeCode :=
  match parseSmpte s with
  | .error err => .error err
  | .ok tm =>
    let ok := tm.IsValid frameRate
    if ok then .ok tm
    else .error (GoError.errorsNew "value out of range")

/-- Source: `ParseTimeCode`. -/
def ParseTimeCode (s : GoString) (frameRate : FrameRate) : Except GoError TimeCode :=
  parseTimeCode s frameRate

/-! ## Delinearization and formatting -/

/-- Left padding with zeros up to the given width. -/
def padZeros (width : Nat) (ds : GoString) : GoString :=
  List.replicate (width - ds.length) '0' ++ ds

/-- The verb `%02d` of `fmt.Sprintf`: decimal digits padded with zeros to
width two; a negative number has its sign first and the sign counts toward
the width. -/
def fmt02d (x : Int) : GoString :=
  if x < 0 then '-' :: padZeros 1 (Nat.toDigits 10 x.natAbs)
  else padZeros 2 (Nat.toDigits 10 x.toNat)

/-- Source: `formatTimeCodeString`, `fmt.Sprintf("%02d:%02d:%02d:%02d", ...)`. -/
def formatTimeCodeString (hours minutes seconds frames : Int) : GoString :=
  fmt02d hours ++ ':' :: fmt02d minutes ++ ':' :: fmt02d seconds ++ ':' :: fmt02d frames

/-- The four local variables `hours`, `minutes`, `seconds`, `frames` of
`formatTimeCodeSmpte2398`, as a tuple. -/
def fieldsSmpte2398 (framecount : Int) : TimeCode :=
  let hours := goMod (goDiv framecount 86400) 24
  let minutes := goMod (goDiv (framecount - (86400 * hours)) 1440) 60
  let seconds := goMod (goDiv (framecount - (1440 * minutes) - (86400 * hours)) 24) 3600
  let frames := goMod (framecount - (24 * seconds) - (1440 * minutes) - (86400 * hours)) 24
  TimeCode.mk hours minutes seconds frames

/-- Source: `formatTimeCodeSmpte2398`. -/
def formatTimeCodeSmpte2398 (framecount : Int) : GoString :=
  let t := fieldsSmpte2398 framecount
  formatTimeCodeString t.hh t.mm t.ss t.ff

/-- The four local variables of `formatTimeCodeSmpte24`. -/
def fieldsSmpte24 (framecount : Int) : TimeCode :=
  let hours := goMod (goDiv framecount 86400) 24
  let minutes := goMod (goDiv (framecount - (86400 * hours)) 1440) 60
  let seconds := goMod (goDiv (framecount - (1440 * minutes) - (86400 * hours)) 24) 3600
  let frames := goMod (framecount - (24 * seconds) - (1440 * minutes) - (86400 * hours)) 24
  TimeCode.mk hours minutes seconds frames

/-- Source: `formatTimeCodeSmpte24`. -/
def formatTimeCodeSmpte24 (framecount : Int) : GoString :=
  let t := fieldsSmpte24 framecount
  formatTimeCodeString t.hh t.mm t.ss t.ff

/-- The four local variables of `formatTimeCodeSmpte25`. -/
def fieldsSmpte25 (framecount : Int) : TimeCode :=
  let hours := goMod (goDiv framecount 90000) 24
  let minutes := goMod (goDiv (framecount - (90000 * hours)) 1500) 60
  let seconds := goMod (goDiv (framecount - (1500 * minutes) - (90000 * hours)) 25) 3600
  let frames := goMod (framecount - (25 * seconds) - (1500 * minutes) - (90000 * hours)) 25
  TimeCode.mk hours minutes seconds frames

/-- Source: `formatTimeCodeSmpte25`. -/
def formatTimeCodeSmpte25 (framecount : Int) : GoString :=
  let t := fieldsSmpte25 framecount
  formatTimeCodeString t.hh t.mm t.ss t.ff

/-- The four local variables of `formatTimeCodeSmpte2997Drop`. -/
def fieldsSmpte2997Drop (framecount : Int) : TimeCode :=
  let hours := goMod (goDiv framecount 107892) 24
  let minutes :=
    goDiv (framecount + (2 * (goDiv (framecount - (107892 * hours)) 1800))
      - (2 * (goDiv (framecount - (107892 * hours)) 18000)) - (107892 * hours)) 1800
  let seconds :=
    goDiv (framecount - (1798 * minutes) - (2 * (goDiv minutes 10)) - (107892 * hours)) 30
  let frames :=
    framecount - (30 * seconds) - (1798 * minutes) - (2 * (goDiv minutes 10)) - (107892 * hours)
  TimeCode.mk hours minutes seconds frames

/-- Source: `formatTimeCodeSmpte2997Drop`,
`fmt.Sprintf("%02d:%02d:%02d;%02d", ...)`. -/
def formatTimeCodeSmpte2997Drop (framecount : Int) : GoString :=
  let t := fieldsSmpte2997Drop framecount
  fmt02d t.hh ++ ':' :: fmt02d t.mm ++ ':' :: fmt02d t.ss ++ ';' :: fmt02d t.ff

/-- The four local variables of `formatTimeCodeSmpte2997NonDrop`. -/
def fieldsSmpte2997NonDrop (framecount : Int) : TimeCode :=
  let hours := goMod (goDiv framecount 108000) 24
  let minutes := goMod (goDiv (framecount - (108000 * hours)) 1800) 60
  let seconds := goMod (goDiv (framecount - (1800 * minutes) - (108000 * hours)) 30) 3600
  let frames := goMod (framecount - (30 * seconds) - (1800 * minutes) - (108000 * hours)) 30
  TimeCode.mk hours minutes seconds frames

/-- Source: `formatTimeCodeSmpte2997NonDrop`. -/
def formatTimeCodeSmpte2997NonDrop (framecount : Int) : GoString :=
  let t := fieldsSmpte2997NonDrop framecount
  formatTimeCodeString t.hh t.mm t.ss t.ff

/-- The four local variables of `formatTimeCodeSmpte30`. -/
def fieldsSmpte30 (framecount : Int) : TimeCode :=
  let hours := goMod (goDiv framecount 108000) 24
  let minutes := goMod (goDiv (framecount - (108000 * hours)) 1800) 60
  let seconds := goMod (goDiv (framecount - (1800 * minutes) - (108000 * hours)) 30) 3600
  let frames := goMod (framecount - (30 * seconds) - (1800 * minutes) - (108000 * hours)) 30
  TimeCode.mk hours minutes seconds frames

/-- Source: `formatTimeCodeSmpte30`. -/
def formatTimeCodeSmpte30 (framecount : Int) : GoString :=
  let t := fieldsSmpte30 framecount
  formatTimeCodeString t.hh t.mm t.ss t.ff

/-- Source: `FormatString`. -/
def FormatString (framecount : Int) (frameRate : FrameRate) : GoString :=
  if frameRate = SMPTE2398 then formatTimeCodeSmpte2398 framecount
  else if frameRate = SMPTE24 then formatTimeCodeSmpte24 framecount
  else if frameRate = SMPTE25 then formatTimeCodeSmpte25 framecount
  else if frameRate = SMPTE2997DROP then formatTimeCodeSmpte2997Drop framecount
  else if frameRate = SMPTE2997NONDROP then formatTimeCodeSmpte2997NonDrop framecount
  else if frameRate = SMPTE30 then formatTimeCodeSmpte30 framecount
  else []

/-- The tuple whose four fields `FormatString` hands to `fmt.Sprintf`, for a
supported rate; `none` for a rate outside the six, where nothing is
formatted. -/
def formatFields (framecount : Int) (frameRate : FrameRate) : Option TimeCode :=
  if frameRate = SMPTE2398 then some (fieldsSmpte2398 framecount)
  else if frameRate = SMPTE24 then some (fieldsSmpte24 framecount)
  else if frameRate = SMPTE25 then some (fieldsSmpte25 framecount)
  else if frameRate = SMPTE2997DROP then some (fieldsSmpte2997Drop framecount)
  else if frameRate = SMPTE2997NONDROP then some (fieldsSmpte2997NonDrop framecount)
  else if frameRate = SMPTE30 then some (fieldsSmpte30 framecount)
  else none

/-! ## Frame count of a text -/

/-- Source: `ParseInt`. -/
def ParseInt (s : GoString) (frameRate : FrameRate) : Int × Option GoError :=
  match parseSmpte s with
  | .error err => (0, some err)
  | .ok tm =>
    if frameRate = SMPTE2398 then
      let ok := tm.IsValidSmpte2398
      if ok then (tm.ParseIntSmpte2398, none)
      else (0, some (GoError.errorsNew "value out of range"))
    else if frameRate = SMPTE24 then
      let ok := tm.IsValidSmpte24
      if ok then (tm.ParseIntSmpte24, none)
      else (0, some (GoError.errorsNew "value out of range"))
    else if frameRate = SMPTE25 then
      let ok := tm.IsValidSmpte25
      if ok then (tm.ParseIntSmpte25, none)
      else (0, some (GoError.errorsNew "value out of range"))
    else if frameRate = SMPTE2997DROP then
      let ok := tm.IsValidSmpte2997Drop
      if ok then (tm.ParseIntSmpte2997Drop, none)
      else (0, some (GoError.errorsNew "value out of range"))
    else if frameRate = SMPTE2997NONDROP then
      let ok := tm.IsValidSmpte2997NonDrop
      if ok then (tm.ParseIntSmpte2997NonDrop, none)
      else (0, some (GoError.errorsNew "value out of range"))
    else if frameRate = SMPTE30 then
      let ok := tm.IsValidSmpte30
      if ok then (tm.ParseIntSmpte30, none)
      else (0, some (GoError.errorsNew "value out of range"))
    else (0, some (GoError.errorsNew "invalid frame rate"))

/-! ## Duration between two texts -/

/-- Source: `parseDurationSmpte2398`. -/
def parseDurationSmpte2398 (tmIn tmOut : TimeCode) : Int × Option GoError :=
  if !tmIn.IsValidSmpte2398 then (0, some (GoError.errorsNew "value out of range"))
  else if !tmOut.IsValidSmpte2398 then (0, some (GoError.errorsNew "value out of range"))
  else
    let inVal := tmIn.ParseIntSmpte2398
    let outVal := tmOut.ParseIntSmpte2398
    if inVal > outVal then ((2073600 + (goMod outVal 2073600)) - inVal, none)
    else (outVal - inVal, none)

/-- Source: `parseDurationSmpte24`. -/
def parseDurationSmpte24 (tmIn tmOut : TimeCode) : Int × Option GoError :=
  if !tmIn.IsValidSmpte24 then (0, some (GoError.errorsNew "value out of range"))
  else if !tmOut.IsValidSmpte24 then (0, some (GoError.errorsNew "value out of range"))
  else
    let inVal := tmIn.ParseIntSmpte24
    let outVal := tmOut.ParseIntSmpte24
    if inVal > outVal then ((2073600 + (goMod outVal 2073600)) - inVal, none)
    else (outVal - inVal, none)

/-- Source: `parseDurationSmpte25`. -/
def parseDurationSmpte25 (tmIn tmOut : TimeCode) : Int × Option GoError :=
  if !tmIn.IsValidSmpte25 then (0, some (GoError.errorsNew "value out of range"))
  else if !tmOut.IsValidSmpte25 then (0, some (GoError.errorsNew "value out of range"))
  else
    let inVal := tmIn.ParseIntSmpte25
    let outVal := tmOut.ParseIntSmpte25
    if inVal > outVal then ((2160000 + (goMod outVal 2160000)) - inVal, none)
    else (outVal - inVal, none)

/-- Source: `parseDurationSmpte2997Drop`. -/
def parseDurationSmpte2997Drop (tmIn tmOut : TimeCode) : Int × Option GoError :=
  if !tmIn.IsValidSmpte2997Drop then (0, some (GoError.errorsNew "value out of range"))
  else if !tmOut.IsValidSmpte2997Drop then (0, some (GoError.errorsNew "value out of range"))
  else
    let inVal := tmIn.ParseIntSmpte2997Drop
    let outVal := tmOut.ParseIntSmpte2997Drop
    if inVal > outVal then ((2589408 + (goMod outVal 2589408)) - inVal, none)
    else (outVal - inVal, none)

/-- Source: `parseDurationSmpte2997NonDrop`. -/
def parseDurationSmpte2997NonDrop (tmIn tmOut : TimeCode) : Int × Option GoError :=
  if tmIn.IsValidSmpte2997NonDrop == false then (0, some (GoError.errorsNew "value out of range"))
  else if tmOut.IsValidSmpte2997NonDrop == false then (0, some (GoError.errorsNew "value out of range"))
  else
    let inVal := tmIn.ParseIntSmpte2997NonDrop
    let outVal := tmOut.ParseIntSmpte2997NonDrop
    if inVal > outVal then ((2592000 + (goMod outVal 2592000)) - inVal, none)
    else (outVal - inVal, none)

/-- Source: `parseDurationSmpte30`. -/
def parseDurationSmpte30 (tmIn tmOut : TimeCode) : Int × Option GoError :=
  if !tmIn.IsValidSmpte30 then (0, some (GoError.errorsNew "value out of range"))
  else if !tmOut.IsValidSmpte30 then (0, some (GoError.errorsNew "value out of range"))
  else
    let inVal := tmIn.ParseIntSmpte30
    let outVal := tmOut.ParseIntSmpte30
    if inVal > outVal then ((2592000 + (goMod outVal 2592000)) - inVal, none)
    else (outVal - inVal, none)

/-- Source: `ParseDuration`. -/
def ParseDuration (inText outText : GoString) (frameRate : FrameRate) : Int × Option GoError :=
  match parseSmpte inText with
  | .error err => (0, some err)
  | .ok tmIn =>
    match parseSmpte outText with
    | .error err => (0, some err)
    | .ok tmOut =>
      if frameRate = SMPTE2398 then parseDurationSmpte2398 tmIn tmOut
      else if frameRate = SMPTE24 then parseDurationSmpte24 tmIn tmOut
      else if frameRate = SMPTE25 then parseDurationSmpte25 tmIn tmOut
      else if frameRate = SMPTE2997DROP then parseDurationSmpte2997Drop tmIn tmOut
      else if frameRate = SMPTE2997NONDROP then parseDurationSmpte2997NonDrop tmIn tmOut
      else if frameRate = SMPTE30 then parseDurationSmpte30 tmIn tmOut
      else (0, some (GoError.errorsNew "invalid frame rate"))

/-! ## Vocabulary of the statements -/

/-- A text of one or two ASCII digits. -/
def Digits12 (d : GoString) : Prop :=
  (d.length = 1 ∨ d.length = 2) ∧ ∀ c ∈ d, isAsciiDigit c = true

/-- A separator character of the frames field. -/
def IsSep (c : Char) : Prop := c = ':' ∨ c = ';' ∨ c = '.'

/-- Decimal value of a digit text. -/
def decVal (d : GoString) : Int :=
  d.foldl (fun acc c => acc * 10 + ((c.toNat : Int) - 48)) 0

/-- Check, on one value, that `%02d` prints two ASCII digits that read back
as the value. -/
def fmt02dReadsBack (n : Nat) : Bool :=
  (fmt02d (n : Int)).length == 2 && (fmt02d (n : Int)).all isAsciiDigit
    && decVal (fmt02d (n : Int)) == (n : Int)

/-- The six enumerated frame rates. -/
def Supported (frameRate : FrameRate) : Prop :=
  frameRate = SMPTE2398 ∨ frameRate = SMPTE24 ∨ frameRate = SMPTE25
    ∨ frameRate = SMPTE2997DROP ∨ frameRate = SMPTE2997NONDROP ∨ frameRate = SMPTE30

/-- A text matches the grammar when `FindStringSubmatch` finds a match. -/
def MatchesGrammar (s : GoString) : Prop := FindStringSubmatch s ≠ none

instance (frameRate : FrameRate) : Decidable (Supported frameRate) := by
  unfold Supported
  infer_instance

instance (s : GoString) : Decidable (MatchesGrammar s) := by
  unfold MatchesGrammar
  infer_instance

/-- A text is valid at a rate when it parses to a tuple that is valid for
the rate. -/
def ValidText (s : GoString) (frameRate : FrameRate) : Prop :=
  ∃ tm, parseSmpte s = .ok tm ∧ tm.IsValid frameRate = true

/-- The linearization that `ParseInt` and `ParseDuration` apply at a rate:
the `ParseIntSmpte*` method of that rate (0 for a rate outside the six,
where none is applied). -/
def linearize (tm : TimeCode) (frameRate : FrameRate) : Int :=
  if frameRate = SMPTE2398 then tm.ParseIntSmpte2398
  else if frameRate = SMPTE24 then tm.ParseIntSmpte24
  else if frameRate = SMPTE25 then tm.ParseIntSmpte25
  else if frameRate = SMPTE2997DROP then tm.ParseIntSmpte2997Drop
  else if frameRate = SMPTE2997NONDROP then tm.ParseIntSmpte2997NonDrop
  else if frameRate = SMPTE30 then tm.ParseIntSmpte30
  else 0

/-- Frames per day of a rate: the modulus that the `parseDurationSmpte*`
function of the rate uses (0 for a rate outside the six). -/
def framesPerDay (frameRate : FrameRate) : Int :=
  if frameRate = SMPTE2398 then 2073600
  else if frameRate = SMPTE24 then 2073600
  else if frameRate = SMPTE25 then 2160000
  else if frameRate = SMPTE2997DROP then 2589408
  else if frameRate = SMPTE2997NONDROP then 2592000
  else if frameRate = SMPTE30 then 2592000
  else 0

/-- Largest frames value of a rate as the specification's validity table
gives it (last column: 23, 23, 24, 29, 29, 29); 0 for a rate outside the
six.  The statements compare the `IsValidSmpte*` predicates of the source
with this table. -/
def maxFrame (frameRate : FrameRate) : Int :=
  if frameRate = SMPTE2398 then 23
  else if frameRate = SMPTE24 then 23
  else if frameRate = SMPTE25 then 24
  else if frameRate = SMPTE2997DROP then 29
  else if frameRate = SMPTE2997NONDROP then 29
  else if frameRate = SMPTE30 then 29
  else 0

/-- The separator that `FormatString` prints before the frames field. -/
def frameSep (frameRate : FrameRate) : Char :=
  if frameRate = SMPTE2997DROP then ';' else ':'

/-! ## The matcher on the grammar -/


theorem run_seq (a b : Re) (s : GoString) (caps : Caps) (k : GoString → Caps → Option Caps) :
    (Re.seq a b).run s caps k = a.run s caps (fun s1 caps1 => b.run s1 caps1 k) := rfl

theorem run_lit (a : Char) (s : GoString) (caps : Caps) (k : GoString → Caps → Option Caps) :
    (Re.lit a).run s caps k =
      match s with
      | [] => none
      | c :: cs => if c = a then k cs caps else none := by
  cases s <;> rfl

theorem run_group12 (i : Nat) (s : GoString) (caps : Caps)
    (k : GoString → Caps → Option Caps) :
    (Re.group i digits12).run s caps k =
      match s with
      | [] => none
      | [c1] => if isAsciiDigit c1 then k [] ((i, [c1]) :: caps) else none
      | c1 :: c2 :: t =>
        if isAsciiDigit c1 then
          if isAsciiDigit c2 then
            firstSome (k t ((i, [c1, c2]) :: caps)) (k (c2 :: t) ((i, [c1]) :: caps))
          else k (c2 :: t) ((i, [c1]) :: caps)
        else none := by
  rcases s with _ | ⟨c1, _ | ⟨c2, t⟩⟩
  · rfl
  · simp [Re.run, digits12, firstSome]
  · have h1 : t.length + 1 + 1 - (t.length + 1) = 1 := by omega
    have h2 : t.length + 1 + 1 - t.length = 2 := by omega
    simp only [Re.run, digits12, List.length_cons, h1, h2, List.take_succ_cons, List.take_zero]
    by_cases hc1 : isAsciiDigit c1 = true <;> by_cases hc2 : isAsciiDigit c2 = true <;>
      simp [hc1, hc2, firstSome]


theorem digit_ne_sep {c : Char} (h : isAsciiDigit c = true) :
    c ≠ ':' ∧ c ≠ ';' ∧ c ≠ '.' := by
  refine ⟨?_, ?_, ?_⟩ <;> rintro rfl <;> revert h <;> decide

theorem sep_not_digit : isAsciiDigit ':' = false ∧ isAsciiDigit ';' = false
    ∧ isAsciiDigit '.' = false := by decide

/-- Completeness of one group: a one- or two-digit text followed by either
nothing or a character that is no digit is captured whole. -/
theorem run_group12_of_digits (i : Nat) (d rest : GoString) (caps : Caps)
    (k : GoString → Caps → Option Caps) (r : Caps) (hd : Digits12 d)
    (hrest : ∀ c ∈ rest.head?, isAsciiDigit c = false)
    (hk : k rest ((i, d) :: caps) = some r) :
    (Re.group i digits12).run (d ++ rest) caps k = some r := by
  obtain ⟨hlen, hdig⟩ := hd
  rw [run_group12]
  rcases d with _ | ⟨c1, _ | ⟨c2, _ | ⟨c3, t⟩⟩⟩
  · simp at hlen
  · have h1 : isAsciiDigit c1 = true := hdig c1 (by simp)
    rcases rest with _ | ⟨x, rest⟩
    · simpa [h1] using hk
    · have hx : isAsciiDigit x = false := hrest x (by simp)
      simpa [h1, hx] using hk
  · have h1 : isAsciiDigit c1 = true := hdig c1 (by simp)
    have h2 : isAsciiDigit c2 = true := hdig c2 (by simp)
    simp [h1, h2, hk, firstSome]
  · simp at hlen


theorem run_group12_sound (i : Nat) (s : GoString) (caps : Caps)
    (k : GoString → Caps → Option Caps) (r : Caps)
    (h : (Re.group i digits12).run s caps k = some r) :
    ∃ d rest, s = d ++ rest ∧ Digits12 d ∧ k rest ((i, d) :: caps) = some r := by
  rw [run_group12] at h
  rcases s with _ | ⟨c1, _ | ⟨c2, t⟩⟩
  · simp at h
  · by_cases h1 : isAsciiDigit c1 = true
    · simp only [h1, if_true] at h
      exact ⟨[c1], [], rfl, ⟨Or.inl rfl, by simpa using h1⟩, h⟩
    · simp [h1] at h
  · by_cases h1 : isAsciiDigit c1 = true
    · simp only [h1, if_true] at h
      by_cases h2 : isAsciiDigit c2 = true
      · simp only [h2, if_true] at h
        cases hk : k t ((i, [c1, c2]) :: caps) with
        | some r2 =>
          rw [hk] at h
          refine ⟨[c1, c2], t, rfl, ⟨Or.inr rfl, ?_⟩, ?_⟩
          · intro c hc
            simp at hc
            rcases hc with rfl | rfl <;> assumption
          · rw [hk]; exact h
        | none =>
          rw [hk] at h
          exact ⟨[c1], c2 :: t, rfl, ⟨Or.inl rfl, by simpa using h1⟩, h⟩
      · simp only [h2] at h
        exact ⟨[c1], c2 :: t, rfl, ⟨Or.inl rfl, by simpa using h1⟩, h⟩
    · simp [h1] at h

theorem run_lit_sound (a : Char) (s : GoString) (caps : Caps)
    (k : GoString → Caps → Option Caps) (r : Caps)
    (h : (Re.lit a).run s caps k = some r) :
    ∃ rest, s = a :: rest ∧ k rest caps = some r := by
  rw [run_lit] at h
  rcases s with _ | ⟨c, cs⟩
  · simp at h
  · by_cases hc : c = a
    · subst hc
      exact ⟨cs, rfl, by simpa using h⟩
    · simp [hc] at h

theorem run_sep (s : GoString) (caps : Caps) (k : GoString → Caps → Option Caps) :
    sepRe.run s caps k =
      match s with
      | [] => none
      | c :: cs => if c = ':' ∨ c = ';' ∨ c = '.' then k cs caps else none := by
  rcases s with _ | ⟨c, cs⟩
  · rfl
  · simp only [sepRe, Re.run]
    by_cases h1 : c = ':'
    · subst h1; cases hk : k cs caps <;> simp [firstSome, hk]
    · by_cases h2 : c = ';'
      · subst h2; cases hk : k cs caps <;> simp [firstSome, hk]
      · by_cases h3 : c = '.'
        · subst h3; cases hk : k cs caps <;> simp [firstSome, hk]
        · simp [firstSome, h1, h2, h3]


theorem run_smpteRe_complete (d1 d2 d3 d4 : GoString) (sep : Char)
    (h1 : Digits12 d1) (h2 : Digits12 d2) (h3 : Digits12 d3) (h4 : Digits12 d4)
    (hsep : IsSep sep) :
    smpteRe.run (d1 ++ ':' :: (d2 ++ ':' :: (d3 ++ sep :: d4))) [] atEnd
      = some [(4, d4), (3, d3), (2, d2), (1, d1)] := by
  have hsepd : isAsciiDigit sep = false := by
    rcases hsep with rfl | rfl | rfl <;> decide
  unfold smpteRe
  rw [run_seq]
  apply run_group12_of_digits 1 d1 _ _ _ _ h1 (by simp; decide)
  simp only [run_seq, run_lit, if_true]
  apply run_group12_of_digits 2 d2 _ _ _ _ h2 (by simp; decide)
  simp only [run_seq, run_lit, if_true]
  apply run_group12_of_digits 3 d3 _ _ _ _ h3 (by simpa using hsepd)
  simp only [run_seq, run_sep]
  have hs : sep = ':' ∨ sep = ';' ∨ sep = '.' := hsep
  simp only [hs, if_true]
  have := run_group12_of_digits 4 d4 [] [(3, d3), (2, d2), (1, d1)] atEnd
    [(4, d4), (3, d3), (2, d2), (1, d1)] h4 (by simp) (by simp [atEnd])
  simpa using this

theorem run_smpteRe_sound (s : GoString) (caps : Caps)
    (h : smpteRe.run s [] atEnd = some caps) :
    ∃ d1 d2 d3 d4 sep, Digits12 d1 ∧ Digits12 d2 ∧ Digits12 d3 ∧ Digits12 d4 ∧ IsSep sep
      ∧ s = d1 ++ ':' :: (d2 ++ ':' :: (d3 ++ sep :: d4))
      ∧ caps = [(4, d4), (3, d3), (2, d2), (1, d1)] := by
  unfold smpteRe at h
  rw [run_seq] at h
  obtain ⟨d1, r1, e1, hd1, ha⟩ := run_group12_sound _ _ _ _ _ h
  simp only [run_seq] at ha
  obtain ⟨r2, e2, hb⟩ := run_lit_sound _ _ _ _ _ ha
  obtain ⟨d2, r3, e3, hd2, hc⟩ := run_group12_sound _ _ _ _ _ hb
  obtain ⟨r4, e4, hd⟩ := run_lit_sound _ _ _ _ _ hc
  obtain ⟨d3, r5, e5, hd3, he⟩ := run_group12_sound _ _ _ _ _ hd
  simp only [run_sep] at he
  rcases r5 with _ | ⟨sep, r6⟩
  · simp at he
  · by_cases hs : sep = ':' ∨ sep = ';' ∨ sep = '.'
    · simp only [hs, if_true] at he
      obtain ⟨d4, r7, e7, hd4, hf⟩ := run_group12_sound _ _ _ _ _ he
      simp only [atEnd] at hf
      by_cases hr : r7 = []
      · simp only [hr, if_true, Option.some.injEq] at hf
        refine ⟨d1, d2, d3, d4, sep, hd1, hd2, hd3, hd4, hs, ?_, hf.symm⟩
        rw [e1, e2, e3, e4, e5, e7, hr]
        simp
      · simp [hr] at hf
    · simp [hs] at he


theorem isAsciiDigit_bounds {c : Char} (h : isAsciiDigit c = true) :
    48 ≤ c.toNat ∧ c.toNat ≤ 57 := by
  simpa [isAsciiDigit] using h

theorem digit_head_ne_sign {c : Char} (h : isAsciiDigit c = true) : c ≠ '-' ∧ c ≠ '+' := by
  refine ⟨?_, ?_⟩ <;> rintro rfl <;> revert h <;> decide

theorem decVal_bounds (d : GoString) (h : Digits12 d) : 0 ≤ decVal d ∧ decVal d ≤ 99 := by
  obtain ⟨hlen, hdig⟩ := h
  rcases d with _ | ⟨c1, _ | ⟨c2, _ | ⟨c3, t⟩⟩⟩
  · simp at hlen
  · have h1 := isAsciiDigit_bounds (hdig c1 (by simp))
    simp only [decVal, List.foldl]
    omega
  · have h1 := isAsciiDigit_bounds (hdig c1 (by simp))
    have h2 := isAsciiDigit_bounds (hdig c2 (by simp))
    simp only [decVal, List.foldl]
    omega
  · simp at hlen

theorem Atoi_digits12 (d : GoString) (h : Digits12 d) : Atoi d = .ok (decVal d) := by
  have hb := decVal_bounds d h
  obtain ⟨hlen, hdig⟩ := h
  have hne : d ≠ [] := by
    rintro rfl
    simp at hlen
  obtain ⟨c, t, rfl⟩ := List.exists_cons_of_ne_nil hne
  have hc := digit_head_ne_sign (hdig c (by simp))
  have hall : (c :: t).all isAsciiDigit = true := by
    rw [List.all_eq_true]
    exact hdig
  unfold Atoi
  simp only [List.head?_cons, Option.some.injEq, hc.1, hc.2, or_self, if_false]
  have hb2 : ¬ (List.foldl (fun acc c => acc * 10 + ((c.toNat : Int) - 48)) 0 (c :: t)
        < -9223372036854775808 ∨ 9223372036854775807
        < List.foldl (fun acc c => acc * 10 + ((c.toNat : Int) - 48)) 0 (c :: t)) := by
    have : decVal (c :: t) = List.foldl (fun acc c => acc * 10 + ((c.toNat : Int) - 48)) 0 (c :: t) := rfl
    omega
  simp only [hall, not_true_eq_false, reduceCtorEq, or_self, if_false, hb2]
  rfl


theorem FindStringSubmatch_of_parts (d1 d2 d3 d4 : GoString) (sep : Char)
    (h1 : Digits12 d1) (h2 : Digits12 d2) (h3 : Digits12 d3) (h4 : Digits12 d4)
    (hsep : IsSep sep) :
    FindStringSubmatch (d1 ++ ':' :: (d2 ++ ':' :: (d3 ++ sep :: d4)))
      = some [d1 ++ ':' :: (d2 ++ ':' :: (d3 ++ sep :: d4)), d1, d2, d3, d4] := by
  unfold FindStringSubmatch
  rw [run_smpteRe_complete d1 d2 d3 d4 sep h1 h2 h3 h4 hsep]
  simp [capture]

theorem parseSmpte_of_submatch (s d1 d2 d3 d4 : GoString)
    (h1 : Digits12 d1) (h2 : Digits12 d2) (h3 : Digits12 d3) (h4 : Digits12 d4)
    (hm : FindStringSubmatch s = some [s, d1, d2, d3, d4]) :
    parseSmpte s = .ok (TimeCode.mk (decVal d1) (decVal d2) (decVal d3) (decVal d4)) := by
  unfold parseSmpte
  rw [hm]
  have e1 : mapGet [("frames", d4), ("seconds", d3), ("minutes", d2), ("hours", d1)] "hours"
      = d1 := by simp [mapGet]
  have e2 : mapGet [("frames", d4), ("seconds", d3), ("minutes", d2), ("hours", d1)] "minutes"
      = d2 := by simp [mapGet]
  have e3 : mapGet [("frames", d4), ("seconds", d3), ("minutes", d2), ("hours", d1)] "seconds"
      = d3 := by simp [mapGet]
  have e4 : mapGet [("frames", d4), ("seconds", d3), ("minutes", d2), ("hours", d1)] "frames"
      = d4 := by simp [mapGet]
  simp [SubexpNames, List.enum, List.enumFrom, e1, e2, e3, e4,
    Atoi_digits12 d1 h1, Atoi_digits12 d2 h2, Atoi_digits12 d3 h3, Atoi_digits12 d4 h4]

theorem parseSmpte_of_parts (d1 d2 d3 d4 : GoString) (sep : Char)
    (h1 : Digits12 d1) (h2 : Digits12 d2) (h3 : Digits12 d3) (h4 : Digits12 d4)
    (hsep : IsSep sep) :
    parseSmpte (d1 ++ ':' :: (d2 ++ ':' :: (d3 ++ sep :: d4)))
      = .ok (TimeCode.mk (decVal d1) (decVal d2) (decVal d3) (decVal d4)) :=
  parseSmpte_of_submatch _ d1 d2 d3 d4 h1 h2 h3 h4
    (FindStringSubmatch_of_parts d1 d2 d3 d4 sep h1 h2 h3 h4 hsep)

/-- The two outcomes of `parseSmpte`: no match and the error of a malformed
text, or a match whose four groups are one- or two-digit texts and the tuple
of their decimal values. -/
theorem parseSmpte_cases (s : GoString) :
    (FindStringSubmatch s = none ∧ parseSmpte s = .error (GoError.errorsNew "invalid value"))
    ∨ ∃ d1 d2 d3 d4 sep, Digits12 d1 ∧ Digits12 d2 ∧ Digits12 d3 ∧ Digits12 d4 ∧ IsSep sep
        ∧ s = d1 ++ ':' :: (d2 ++ ':' :: (d3 ++ sep :: d4))
        ∧ FindStringSubmatch s = some [s, d1, d2, d3, d4]
        ∧ parseSmpte s = .ok (TimeCode.mk (decVal d1) (decVal d2) (decVal d3) (decVal d4)) := by
  cases hr : smpteRe.run s [] atEnd with
  | none =>
    left
    have hf : FindStringSubmatch s = none := by simp [FindStringSubmatch, hr]
    exact ⟨hf, by simp [parseSmpte, hf]⟩
  | some caps =>
    right
    obtain ⟨d1, d2, d3, d4, sep, h1, h2, h3, h4, hsep, hs, -⟩ := run_smpteRe_sound s caps hr
    have hf := FindStringSubmatch_of_parts d1 d2 d3 d4 sep h1 h2 h3 h4 hsep
    rw [← hs] at hf
    exact ⟨d1, d2, d3, d4, sep, h1, h2, h3, h4, hsep, hs, hf,
      parseSmpte_of_submatch s d1 d2 d3 d4 h1 h2 h3 h4 hf⟩

/-! ## Printing and reading back a field -/

set_option maxRecDepth 100000 in
theorem fmt02dReadsBack_all : ∀ n : Fin 100, fmt02dReadsBack n.val = true := by decide

theorem fmt02d_digits (x : Int) (h0 : 0 ≤ x) (h1 : x ≤ 99) :
    Digits12 (fmt02d x) ∧ decVal (fmt02d x) = x := by
  obtain ⟨n, rfl⟩ := Int.eq_ofNat_of_zero_le h0
  have hn : n < 100 := by omega
  have h := fmt02dReadsBack_all ⟨n, hn⟩
  simp only [fmt02dReadsBack, Bool.and_eq_true, beq_iff_eq, List.all_eq_true] at h
  exact ⟨⟨Or.inr h.1.1, h.1.2⟩, h.2⟩

theorem parseSmpte_fmt (h m s f : Int) (sep : Char) (hsep : IsSep sep)
    (hh : 0 ≤ h ∧ h ≤ 99) (hm : 0 ≤ m ∧ m ≤ 99) (hs : 0 ≤ s ∧ s ≤ 99) (hf : 0 ≤ f ∧ f ≤ 99) :
    parseSmpte (fmt02d h ++ ':' :: fmt02d m ++ ':' :: fmt02d s ++ sep :: fmt02d f)
      = .ok (TimeCode.mk h m s f) := by
  obtain ⟨d1, e1⟩ := fmt02d_digits h hh.1 hh.2
  obtain ⟨d2, e2⟩ := fmt02d_digits m hm.1 hm.2
  obtain ⟨d3, e3⟩ := fmt02d_digits s hs.1 hs.2
  obtain ⟨d4, e4⟩ := fmt02d_digits f hf.1 hf.2
  have key := parseSmpte_of_parts _ _ _ _ sep d1 d2 d3 d4 hsep
  rw [e1, e2, e3, e4] at key
  simpa [List.append_assoc] using key

theorem parseSmpte_formatTimeCodeString (h m s f : Int)
    (hh : 0 ≤ h ∧ h ≤ 99) (hm : 0 ≤ m ∧ m ≤ 99) (hs : 0 ≤ s ∧ s ≤ 99) (hf : 0 ≤ f ∧ f ≤ 99) :
    parseSmpte (formatTimeCodeString h m s f) = .ok (TimeCode.mk h m s f) :=
  parseSmpte_fmt h m s f ':' (Or.inl rfl) hh hm hs hf

/-! ## Arithmetic of delinearization -/

theorem goDiv_eq {a b : Int} (ha : 0 ≤ a) (hb : 0 ≤ b) : goDiv a b = a / b :=
  Int.tdiv_eq_ediv ha hb

theorem goMod_eq {a b : Int} (ha : 0 ≤ a) (hb : 0 ≤ b) : goMod a b = a % b :=
  Int.tmod_eq_emod ha hb

theorem fieldsSmpte24_eq_2398 (n : Int) : fieldsSmpte24 n = fieldsSmpte2398 n := rfl

theorem fieldsSmpte2997NonDrop_eq_30 (n : Int) : fieldsSmpte2997NonDrop n = fieldsSmpte30 n := rfl

/-- Closed form of the 24 fps fields of a non-negative count. -/
theorem fieldsSmpte2398_eq (n : Int) (h : 0 ≤ n) :
    fieldsSmpte2398 n
      = TimeCode.mk ((n / 86400) % 24) ((n % 86400) / 1440) ((n % 1440) / 24) (n % 24) := by
  have e1 : goMod (goDiv n 86400) 24 = (n / 86400) % 24 := by
    rw [goDiv_eq h (by norm_num), goMod_eq (by omega) (by norm_num)]
  have e2 : goMod (goDiv (n - 86400 * ((n / 86400) % 24)) 1440) 60 = (n % 86400) / 1440 := by
    rw [goDiv_eq (by omega) (by norm_num), goMod_eq (by omega) (by norm_num)]
    omega
  have e3 : goMod (goDiv (n - 1440 * ((n % 86400) / 1440) - 86400 * ((n / 86400) % 24)) 24) 3600
      = (n % 1440) / 24 := by
    rw [goDiv_eq (by omega) (by norm_num), goMod_eq (by omega) (by norm_num)]
    omega
  have e4 : goMod (n - 24 * ((n % 1440) / 24) - 1440 * ((n % 86400) / 1440)
      - 86400 * ((n / 86400) % 24)) 24 = n % 24 := by
    rw [goMod_eq (by omega) (by norm_num)]
    omega
  simp only [fieldsSmpte2398, e1, e2, e3, e4]

/-- Closed form of the 25 fps fields of a non-negative count. -/
theorem fieldsSmpte25_eq (n : Int) (h : 0 ≤ n) :
    fieldsSmpte25 n
      = TimeCode.mk ((n / 90000) % 24) ((n % 90000) / 1500) ((n % 1500) / 25) (n % 25) := by
  have e1 : goMod (goDiv n 90000) 24 = (n / 90000) % 24 := by
    rw [goDiv_eq h (by norm_num), goMod_eq (by omega) (by norm_num)]
  have e2 : goMod (goDiv (n - 90000 * ((n / 90000) % 24)) 1500) 60 = (n % 90000) / 1500 := by
    rw [goDiv_eq (by omega) (by norm_num), goMod_eq (by omega) (by norm_num)]
    omega
  have e3 : goMod (goDiv (n - 1500 * ((n % 90000) / 1500) - 90000 * ((n / 90000) % 24)) 25) 3600
      = (n % 1500) / 25 := by
    rw [goDiv_eq (by omega) (by norm_num), goMod_eq (by omega) (by norm_num)]
    omega
  have e4 : goMod (n - 25 * ((n % 1500) / 25) - 1500 * ((n % 90000) / 1500)
      - 90000 * ((n / 90000) % 24)) 25 = n % 25 := by
    rw [goMod_eq (by omega) (by norm_num)]
    omega
  simp only [fieldsSmpte25, e1, e2, e3, e4]

/-- Closed form of the 30 fps fields of a non-negative count. -/
theorem fieldsSmpte30_eq (n : Int) (h : 0 ≤ n) :
    fieldsSmpte30 n
      = TimeCode.mk ((n / 108000) % 24) ((n % 108000) / 1800) ((n % 1800) / 30) (n % 30) := by
  have e1 : goMod (goDiv n 108000) 24 = (n / 108000) % 24 := by
    rw [goDiv_eq h (by norm_num), goMod_eq (by omega) (by norm_num)]
  have e2 : goMod (goDiv (n - 108000 * ((n / 108000) % 24)) 1800) 60 = (n % 108000) / 1800 := by
    rw [goDiv_eq (by omega) (by norm_num), goMod_eq (by omega) (by norm_num)]
    omega
  have e3 : goMod (goDiv (n - 1800 * ((n % 108000) / 1800) - 108000 * ((n / 108000) % 24)) 30)
      3600 = (n % 1800) / 30 := by
    rw [goDiv_eq (by omega) (by norm_num), goMod_eq (by omega) (by norm_num)]
    omega
  have e4 : goMod (n - 30 * ((n % 1800) / 30) - 1800 * ((n % 108000) / 1800)
      - 108000 * ((n / 108000) % 24)) 30 = n % 30 := by
    rw [goMod_eq (by omega) (by norm_num)]
    omega
  simp only [fieldsSmpte30, e1, e2, e3, e4]

/-- The minutes expression of the drop-frame formatter, within one hour of
drop-frame counts: ten-minute blocks of 17982 frames, the first minute of a
block 1800 frames long and the other nine 1798. -/
theorem drop_minutes (r : Int) (h0 : 0 ≤ r) (h1 : r < 107892) :
    (r + 2 * (r / 1800) - 2 * (r / 18000)) / 1800
      = 10 * (r / 17982) + (if r % 17982 < 2 then 0 else (r % 17982 - 2) / 1798) := by
  obtain ⟨b, hb⟩ : ∃ b, b = r / 17982 := ⟨_, rfl⟩
  obtain ⟨e, he⟩ : ∃ e, e = r / 1800 := ⟨_, rfl⟩
  have hb1 : 0 ≤ b ∧ b ≤ 5 := by omega
  have he1 : 0 ≤ e ∧ e ≤ 59 := by omega
  rw [← he, ← hb]
  obtain ⟨hb0, hb5⟩ := hb1
  obtain ⟨he0, he5⟩ := he1
  split <;> interval_cases e <;> omega

/-- The drop-frame fields of a count within one day, in integer arithmetic. -/
theorem fieldsSmpte2997Drop_eq (n : Int) (h : 0 ≤ n) (hn : n < 2589408) :
    fieldsSmpte2997Drop n
      = (let r := n % 107892
         let m := (r + 2 * (r / 1800) - 2 * (r / 18000)) / 1800
         let s := (r - 1798 * m - 2 * (m / 10)) / 30
         TimeCode.mk (n / 107892) m s (r - 30 * s - 1798 * m - 2 * (m / 10))) := by
  have hr0 : 0 ≤ n % 107892 := by omega
  have hr1 : n % 107892 < 107892 := by omega
  have hmin := drop_minutes (n % 107892) hr0 hr1
  have e1 : goMod (goDiv n 107892) 24 = n / 107892 := by
    rw [goDiv_eq h (by norm_num), goMod_eq (by omega) (by norm_num)]
    omega
  have e0 : n - 107892 * (n / 107892) = n % 107892 := by omega
  have e2 : goDiv (n - 107892 * (n / 107892)) 1800 = (n % 107892) / 1800 := by
    rw [e0, goDiv_eq hr0 (by norm_num)]
  have e3 : goDiv (n - 107892 * (n / 107892)) 18000 = (n % 107892) / 18000 := by
    rw [e0, goDiv_eq hr0 (by norm_num)]
  have e4 : goDiv (n + 2 * ((n % 107892) / 1800) - 2 * ((n % 107892) / 18000)
      - 107892 * (n / 107892)) 1800
      = (n % 107892 + 2 * ((n % 107892) / 1800) - 2 * ((n % 107892) / 18000)) / 1800 := by
    rw [goDiv_eq (by omega) (by norm_num)]
    congr 1
    omega
  obtain ⟨m, hm⟩ : ∃ m, m = (n % 107892 + 2 * ((n % 107892) / 1800)
      - 2 * ((n % 107892) / 18000)) / 1800 := ⟨_, rfl⟩
  have hm2 : m = 10 * (n % 107892 / 17982)
      + (if n % 107892 % 17982 < 2 then 0 else (n % 107892 % 17982 - 2) / 1798) := by
    rw [hm, hmin]
  have hmb : 0 ≤ m ∧ m ≤ 59 ∧ 0 ≤ n % 107892 - 1798 * m - 2 * (m / 10) := by
    split at hm2 <;> omega
  have e5 : goDiv m 10 = m / 10 := goDiv_eq hmb.1 (by norm_num)
  have e6 : goDiv (n - 1798 * m - 2 * (m / 10) - 107892 * (n / 107892)) 30
      = (n % 107892 - 1798 * m - 2 * (m / 10)) / 30 := by
    rw [goDiv_eq (by omega) (by norm_num)]
    congr 1
    omega
  simp only [fieldsSmpte2997Drop, e1, e2, e3, e4, ← hm, e5, e6]
  congr 1
  omega

/-- Within one day the drop-frame formatter computes a valid tuple that is
no skipped label and that linearizes back to the count. -/
theorem fieldsSmpte2997Drop_spec (n : Int) (h : 0 ≤ n) (hn : n < 2589408) :
    0 ≤ (fieldsSmpte2997Drop n).hh ∧ (fieldsSmpte2997Drop n).hh ≤ 23
    ∧ 0 ≤ (fieldsSmpte2997Drop n).mm ∧ (fieldsSmpte2997Drop n).mm ≤ 59
    ∧ 0 ≤ (fieldsSmpte2997Drop n).ss ∧ (fieldsSmpte2997Drop n).ss ≤ 59
    ∧ 0 ≤ (fieldsSmpte2997Drop n).ff ∧ (fieldsSmpte2997Drop n).ff ≤ 29
    ∧ ¬ ((fieldsSmpte2997Drop n).mm % 10 ≠ 0 ∧ (fieldsSmpte2997Drop n).ss = 0
          ∧ (fieldsSmpte2997Drop n).ff < 2)
    ∧ (fieldsSmpte2997Drop n).ff + 30 * (fieldsSmpte2997Drop n).ss
        + 1798 * (fieldsSmpte2997Drop n).mm + 2 * ((fieldsSmpte2997Drop n).mm / 10)
        + 107892 * (fieldsSmpte2997Drop n).hh = n := by
  rw [fieldsSmpte2997Drop_eq n h hn]
  have hr0 : 0 ≤ n % 107892 := by omega
  have hr1 : n % 107892 < 107892 := by omega
  have hmin := drop_minutes (n % 107892) hr0 hr1
  obtain ⟨m, hm⟩ : ∃ m, m = (n % 107892 + 2 * ((n % 107892) / 1800)
      - 2 * ((n % 107892) / 18000)) / 1800 := ⟨_, rfl⟩
  simp only [← hm]
  rw [← hm] at hmin
  split at hmin <;> omega

/-- The drop-frame formatter recovers every valid tuple that is no skipped
label from its linearization. -/
theorem fieldsSmpte2997Drop_of_tuple (h m s f : Int) (hh : 0 ≤ h ∧ h ≤ 23)
    (hm : 0 ≤ m ∧ m ≤ 59) (hs : 0 ≤ s ∧ s ≤ 59) (hf : 0 ≤ f ∧ f ≤ 29)
    (hskip : ¬ (m % 10 ≠ 0 ∧ s = 0 ∧ f < 2)) :
    fieldsSmpte2997Drop (f + 30 * s + 1798 * m + (2 * (m / 10) + 107892 * h))
      = TimeCode.mk h m s f := by
  obtain ⟨n, hn⟩ : ∃ n, n = f + 30 * s + 1798 * m + (2 * (m / 10) + 107892 * h) := ⟨_, rfl⟩
  rw [← hn, fieldsSmpte2997Drop_eq n (by omega) (by omega)]
  have hr : n % 107892 = f + 30 * s + 1798 * m + 2 * (m / 10) := by omega
  have hq : n / 107892 = h := by omega
  have hmin := drop_minutes (n % 107892) (by omega) (by omega)
  have hm2 : (n % 107892 + 2 * ((n % 107892) / 1800) - 2 * ((n % 107892) / 18000)) / 1800
      = m := by
    rw [hmin]
    split <;> omega
  simp only [hm2, hq]
  congr 1 <;> omega

/-! ## Dispatch on the rate -/

theorem not_supported_ne {frameRate : FrameRate} (h : ¬ Supported frameRate) :
    frameRate ≠ SMPTE2398 ∧ frameRate ≠ SMPTE24 ∧ frameRate ≠ SMPTE25
      ∧ frameRate ≠ SMPTE2997DROP ∧ frameRate ≠ SMPTE2997NONDROP ∧ frameRate ≠ SMPTE30 := by
  simp only [Supported, not_or] at h
  exact h

theorem IsValid_iff (tm : TimeCode) (frameRate : FrameRate) (h : Supported frameRate) :
    tm.IsValid frameRate = true ↔
      (0 ≤ tm.hh ∧ tm.hh ≤ 23) ∧ (0 ≤ tm.mm ∧ tm.mm ≤ 59) ∧ (0 ≤ tm.ss ∧ tm.ss ≤ 59)
        ∧ (0 ≤ tm.ff ∧ tm.ff ≤ maxFrame frameRate) := by
  rcases h with h | h | h | h | h | h <;> subst h <;>
    simp [TimeCode.IsValid, TimeCode.IsValidSmpte2398, TimeCode.IsValidSmpte24,
      TimeCode.IsValidSmpte25, TimeCode.IsValidSmpte2997Drop, TimeCode.IsValidSmpte2997NonDrop,
      TimeCode.IsValidSmpte30, maxFrame, SMPTE2398, SMPTE24, SMPTE25, SMPTE2997DROP,
      SMPTE2997NONDROP, SMPTE30]

theorem IsValid_unsupported (tm : TimeCode) (frameRate : FrameRate) (h : ¬ Supported frameRate) :
    tm.IsValid frameRate = false := by
  obtain ⟨h1, h2, h3, h4, h5, h6⟩ := not_supported_ne h
  simp [TimeCode.IsValid, h1, h2, h3, h4, h5, h6]

theorem IsValid_supported (tm : TimeCode) (frameRate : FrameRate)
    (h : tm.IsValid frameRate = true) : Supported frameRate := by
  by_contra hn
  rw [IsValid_unsupported tm frameRate hn] at h
  exact Bool.false_ne_true h

theorem ParseInt_of_error (s : GoString) (frameRate : FrameRate) (e : GoError)
    (hp : parseSmpte s = .error e) : ParseInt s frameRate = (0, some e) := by
  simp [ParseInt, hp]

theorem ParseInt_of_ok (s : GoString) (tm : TimeCode) (frameRate : FrameRate)
    (hp : parseSmpte s = .ok tm) (h : Supported frameRate) :
    ParseInt s frameRate
      = if tm.IsValid frameRate = true then (linearize tm frameRate, none)
        else (0, some errOutOfRange) := by
  rcases h with h | h | h | h | h | h <;> subst h <;>
    simp [ParseInt, hp, TimeCode.IsValid, linearize, errOutOfRange, SMPTE2398, SMPTE24, SMPTE25,
      SMPTE2997DROP, SMPTE2997NONDROP, SMPTE30]

theorem ParseInt_unsupported (s : GoString) (tm : TimeCode) (frameRate : FrameRate)
    (hp : parseSmpte s = .ok tm) (h : ¬ Supported frameRate) :
    ParseInt s frameRate = (0, some errInvalidFrameRate) := by
  obtain ⟨h1, h2, h3, h4, h5, h6⟩ := not_supported_ne h
  simp [ParseInt, hp, h1, h2, h3, h4, h5, h6, errInvalidFrameRate]

theorem parseTimeCode_of_ok (s : GoString) (tm : TimeCode) (frameRate : FrameRate)
    (hp : parseSmpte s = .ok tm) :
    ParseTimeCode s frameRate
      = if tm.IsValid frameRate = true then .ok tm else .error errOutOfRange := by
  simp [ParseTimeCode, parseTimeCode, hp, errOutOfRange]

theorem parseTimeCode_of_error (s : GoString) (frameRate : FrameRate) (e : GoError)
    (hp : parseSmpte s = .error e) : ParseTimeCode s frameRate = .error e := by
  simp [ParseTimeCode, parseTimeCode, hp]

theorem ParseDuration_of_ok (inText outText : GoString) (tmIn tmOut : TimeCode)
    (frameRate : FrameRate) (hi : parseSmpte inText = .ok tmIn)
    (ho : parseSmpte outText = .ok tmOut) (h : Supported frameRate) :
    ParseDuration inText outText frameRate
      = if tmIn.IsValid frameRate = true ∧ tmOut.IsValid frameRate = true then
          (if linearize tmIn frameRate > linearize tmOut frameRate then
            ((framesPerDay frameRate
                + goMod (linearize tmOut frameRate) (framesPerDay frameRate))
              - linearize tmIn frameRate, none)
           else (linearize tmOut frameRate - linearize tmIn frameRate, none))
        else (0, some errOutOfRange) := by
  rcases h with h | h | h | h | h | h <;> subst h <;>
    simp [ParseDuration, hi, ho, TimeCode.IsValid, linearize, framesPerDay, errOutOfRange,
      parseDurationSmpte2398, parseDurationSmpte24, parseDurationSmpte25,
      parseDurationSmpte2997Drop, parseDurationSmpte2997NonDrop, parseDurationSmpte30,
      SMPTE2398, SMPTE24, SMPTE25, SMPTE2997DROP, SMPTE2997NONDROP, SMPTE30] <;>
    split_ifs <;> simp_all

theorem ParseDuration_unsupported (inText outText : GoString) (tmIn tmOut : TimeCode)
    (frameRate : FrameRate) (hi : parseSmpte inText = .ok tmIn)
    (ho : parseSmpte outText = .ok tmOut) (h : ¬ Supported frameRate) :
    ParseDuration inText outText frameRate = (0, some errInvalidFrameRate) := by
  obtain ⟨h1, h2, h3, h4, h5, h6⟩ := not_supported_ne h
  simp [ParseDuration, hi, ho, h1, h2, h3, h4, h5, h6, errInvalidFrameRate]

/-! ## Linearization and delinearization are inverse within a day -/

theorem drop_linearize_eq (tm : TimeCode) (hm : 0 ≤ tm.mm) :
    tm.ParseIntSmpte2997Drop
      = (if tm.mm % 10 ≠ 0 ∧ tm.ss = 0 ∧ (tm.ff = 0 ∨ tm.ff = 1) then 2 else tm.ff)
        + 30 * tm.ss + 1798 * tm.mm + (2 * (tm.mm / 10) + 107892 * tm.hh) := by
  simp only [TimeCode.ParseIntSmpte2997Drop, goMod_eq hm (by norm_num : (0 : Int) ≤ 10),
    goDiv_eq hm (by norm_num : (0 : Int) ≤ 10)]

theorem linearize_bounds (tm : TimeCode) (frameRate : FrameRate)
    (hv : tm.IsValid frameRate = true) :
    0 ≤ linearize tm frameRate ∧ linearize tm frameRate < framesPerDay frameRate := by
  have hs := IsValid_supported tm frameRate hv
  have hr := (IsValid_iff tm frameRate hs).1 hv
  obtain ⟨⟨h1, h2⟩, ⟨m1, m2⟩, ⟨s1, s2⟩, f1, f2⟩ := hr
  have hd := drop_linearize_eq tm m1
  rcases hs with h | h | h | h | h | h <;> subst h <;>
    simp only [linearize, framesPerDay, maxFrame, SMPTE2398, SMPTE24, SMPTE25, SMPTE2997DROP,
      SMPTE2997NONDROP, SMPTE30, TimeCode.ParseIntSmpte2398, TimeCode.ParseIntSmpte24,
      TimeCode.ParseIntSmpte25, TimeCode.ParseIntSmpte2997NonDrop, TimeCode.ParseIntSmpte30,
      hd] at f2 ⊢ <;>
    norm_num at f2 ⊢ <;> (try split) <;> omega


theorem FormatString_eq (n : Int) (frameRate : FrameRate) (tc : TimeCode)
    (h : formatFields n frameRate = some tc) :
    FormatString n frameRate
      = fmt02d tc.hh ++ ':' :: fmt02d tc.mm ++ ':' :: fmt02d tc.ss
          ++ frameSep frameRate :: fmt02d tc.ff := by
  unfold formatFields at h
  split_ifs at h with h1 h2 h3 h4 h5 h6 <;> simp only [Option.some.injEq] at h <;> subst h
  · subst h1
    simp [FormatString, frameSep, formatTimeCodeSmpte2398, formatTimeCodeString, SMPTE2398,
      SMPTE2997DROP]
  · subst h2
    simp [FormatString, frameSep, formatTimeCodeSmpte24, formatTimeCodeString, SMPTE24,
      SMPTE2398, SMPTE2997DROP]
  · subst h3
    simp [FormatString, frameSep, formatTimeCodeSmpte25, formatTimeCodeString, SMPTE24,
      SMPTE2398, SMPTE25, SMPTE2997DROP]
  · subst h4
    simp [FormatString, frameSep, formatTimeCodeSmpte2997Drop, SMPTE24, SMPTE2398, SMPTE25,
      SMPTE2997DROP]
  · subst h5
    simp [FormatString, frameSep, formatTimeCodeSmpte2997NonDrop, formatTimeCodeString, SMPTE24,
      SMPTE2398, SMPTE25, SMPTE2997DROP, SMPTE2997NONDROP]
  · subst h6
    simp [FormatString, frameSep, formatTimeCodeSmpte30, formatTimeCodeString, SMPTE24,
      SMPTE2398, SMPTE25, SMPTE2997DROP, SMPTE2997NONDROP, SMPTE30]

theorem parseSmpte_FormatString (n : Int) (frameRate : FrameRate) (tc : TimeCode)
    (h : formatFields n frameRate = some tc)
    (hh : 0 ≤ tc.hh ∧ tc.hh ≤ 99) (hm : 0 ≤ tc.mm ∧ tc.mm ≤ 99)
    (hs : 0 ≤ tc.ss ∧ tc.ss ≤ 99) (hf : 0 ≤ tc.ff ∧ tc.ff ≤ 99) :
    parseSmpte (FormatString n frameRate) = .ok tc := by
  rw [FormatString_eq n frameRate tc h]
  have hsep : IsSep (frameSep frameRate) := by
    unfold frameSep
    split_ifs
    · exact Or.inr (Or.inl rfl)
    · exact Or.inl rfl
  exact parseSmpte_fmt tc.hh tc.mm tc.ss tc.ff _ hsep hh hm hs hf

theorem formatFields_drop (n : Int) :
    formatFields n SMPTE2997DROP = some (fieldsSmpte2997Drop n) := by
  simp [formatFields, SMPTE2398, SMPTE24, SMPTE25, SMPTE2997DROP]

theorem linearize_drop (tm : TimeCode) :
    linearize tm SMPTE2997DROP = tm.ParseIntSmpte2997Drop := by
  simp [linearize, SMPTE2398, SMPTE24, SMPTE25, SMPTE2997DROP]

/-- Delinearization undoes linearization on every valid tuple, up to the
drop-frame correction. -/
theorem formatFields_linearize (tm : TimeCode) (frameRate : FrameRate)
    (hv : tm.IsValid frameRate = true) :
    formatFields (linearize tm frameRate) frameRate
      = some (if frameRate = SMPTE2997DROP ∧ tm.mm % 10 ≠ 0 ∧ tm.ss = 0
                ∧ (tm.ff = 0 ∨ tm.ff = 1)
              then TimeCode.mk tm.hh tm.mm tm.ss 2 else tm) := by
  have hsup := IsValid_supported tm frameRate hv
  have hb := linearize_bounds tm frameRate hv
  have hr := (IsValid_iff tm frameRate hsup).1 hv
  obtain ⟨⟨h1, h2⟩, ⟨m1, m2⟩, ⟨s1, s2⟩, f1, f2⟩ := hr
  obtain ⟨hh, mm, ss, ff⟩ := tm
  simp only at h1 h2 m1 m2 s1 s2 f1 f2
  rcases hsup with h | h | h | h | h | h <;> subst h
  · simp [maxFrame, SMPTE2398, SMPTE2398, SMPTE24, SMPTE25, SMPTE2997DROP, SMPTE2997NONDROP] at f2
    simp [formatFields, linearize, SMPTE2398, SMPTE2398, SMPTE24, SMPTE25, SMPTE2997DROP,
      SMPTE2997NONDROP, TimeCode.ParseIntSmpte2398]
    rw [fieldsSmpte2398_eq _ (by omega), TimeCode.mk.injEq]
    refine ⟨?_, ?_, ?_, ?_⟩ <;> omega
  · simp [maxFrame, SMPTE24, SMPTE2398, SMPTE24, SMPTE25, SMPTE2997DROP, SMPTE2997NONDROP] at f2
    simp [formatFields, linearize, SMPTE24, SMPTE2398, SMPTE24, SMPTE25, SMPTE2997DROP,
      SMPTE2997NONDROP, TimeCode.ParseIntSmpte24]
    rw [fieldsSmpte24_eq_2398, fieldsSmpte2398_eq _ (by omega), TimeCode.mk.injEq]
    refine ⟨?_, ?_, ?_, ?_⟩ <;> omega
  · simp [maxFrame, SMPTE25, SMPTE2398, SMPTE24, SMPTE25, SMPTE2997DROP, SMPTE2997NONDROP] at f2
    simp [formatFields, linearize, SMPTE25, SMPTE2398, SMPTE24, SMPTE25, SMPTE2997DROP,
      SMPTE2997NONDROP, TimeCode.ParseIntSmpte25]
    rw [fieldsSmpte25_eq _ (by omega), TimeCode.mk.injEq]
    refine ⟨?_, ?_, ?_, ?_⟩ <;> omega
  · simp [maxFrame, SMPTE2398, SMPTE24, SMPTE25, SMPTE2997DROP] at f2
    have hd := drop_linearize_eq (TimeCode.mk hh mm ss ff) m1
    simp only at hd
    rw [formatFields_drop, linearize_drop, hd]
    by_cases hskip : mm % 10 ≠ 0 ∧ ss = 0 ∧ (ff = 0 ∨ ff = 1)
    · rw [if_pos hskip, if_pos ⟨rfl, hskip⟩]
      exact congrArg some (fieldsSmpte2997Drop_of_tuple hh mm ss 2 ⟨h1, h2⟩ ⟨m1, m2⟩ ⟨s1, s2⟩
        ⟨by norm_num, by norm_num⟩ (by omega))
    · rw [if_neg hskip, if_neg (fun hc => hskip hc.2)]
      exact congrArg some (fieldsSmpte2997Drop_of_tuple hh mm ss ff ⟨h1, h2⟩ ⟨m1, m2⟩ ⟨s1, s2⟩
        ⟨f1, f2⟩ (by omega))
  · simp [maxFrame, SMPTE2997NONDROP, SMPTE2398, SMPTE24, SMPTE25, SMPTE2997DROP, SMPTE2997NONDROP] at f2
    simp [formatFields, linearize, SMPTE2997NONDROP, SMPTE2398, SMPTE24, SMPTE25, SMPTE2997DROP,
      SMPTE2997NONDROP, TimeCode.ParseIntSmpte2997NonDrop]
    rw [fieldsSmpte2997NonDrop_eq_30, fieldsSmpte30_eq _ (by omega), TimeCode.mk.injEq]
    refine ⟨?_, ?_, ?_, ?_⟩ <;> omega
  · simp [maxFrame, SMPTE30, SMPTE2398, SMPTE24, SMPTE25, SMPTE2997DROP, SMPTE2997NONDROP] at f2
    simp [formatFields, linearize, SMPTE30, SMPTE2398, SMPTE24, SMPTE25, SMPTE2997DROP,
      SMPTE2997NONDROP, TimeCode.ParseIntSmpte30]
    rw [fieldsSmpte30_eq _ (by omega), TimeCode.mk.injEq]
    refine ⟨?_, ?_, ?_, ?_⟩ <;> omega


/-- For a non-drop rate the formatted tuple of every non-negative count is
valid: the count is wrapped into one day. -/
theorem formatFields_valid_nondrop (n : Int) (frameRate : FrameRate) (hs : Supported frameRate)
    (hnd : frameRate ≠ SMPTE2997DROP) (h0 : 0 ≤ n) :
    ∃ tc, formatFields n frameRate = some tc ∧ tc.IsValid frameRate = true := by
  rcases hs with h | h | h | h | h | h <;> subst h
  · refine ⟨fieldsSmpte2398 n, by simp [formatFields], ?_⟩
    rw [IsValid_iff _ _ (Or.inl rfl), fieldsSmpte2398_eq n h0]
    simp only [maxFrame, if_true]
    omega
  · refine ⟨fieldsSmpte2398 n, by simp [formatFields, fieldsSmpte24_eq_2398, SMPTE24, SMPTE2398], ?_⟩
    rw [IsValid_iff _ _ (Or.inr (Or.inl rfl)), fieldsSmpte2398_eq n h0]
    simp [maxFrame, SMPTE24, SMPTE2398]
    omega
  · refine ⟨fieldsSmpte25 n, by simp [formatFields, SMPTE25, SMPTE24, SMPTE2398], ?_⟩
    rw [IsValid_iff _ _ (Or.inr (Or.inr (Or.inl rfl))), fieldsSmpte25_eq n h0]
    simp [maxFrame, SMPTE25, SMPTE24, SMPTE2398]
    omega
  · exact absurd rfl hnd
  · refine ⟨fieldsSmpte30 n, by simp [formatFields, fieldsSmpte2997NonDrop_eq_30,
      SMPTE2997NONDROP, SMPTE2997DROP, SMPTE25, SMPTE24, SMPTE2398], ?_⟩
    rw [IsValid_iff _ _ (Or.inr (Or.inr (Or.inr (Or.inr (Or.inl rfl))))), fieldsSmpte30_eq n h0]
    simp [maxFrame, SMPTE2997NONDROP, SMPTE2997DROP, SMPTE25, SMPTE24, SMPTE2398]
    omega
  · refine ⟨fieldsSmpte30 n, by simp [formatFields, SMPTE30,
      SMPTE2997NONDROP, SMPTE2997DROP, SMPTE25, SMPTE24, SMPTE2398], ?_⟩
    rw [IsValid_iff _ _ (Or.inr (Or.inr (Or.inr (Or.inr (Or.inr rfl))))), fieldsSmpte30_eq n h0]
    simp [maxFrame, SMPTE30, SMPTE2997NONDROP, SMPTE2997DROP, SMPTE25, SMPTE24, SMPTE2398]
    omega

/-- Within one day the formatted tuple is valid and linearizes back to the
count, at each of the six rates. -/
theorem linearize_formatFields (n : Int) (frameRate : FrameRate) (hs : Supported frameRate)
    (h0 : 0 ≤ n) (h1 : n < framesPerDay frameRate) :
    ∃ tc, formatFields n frameRate = some tc ∧ tc.IsValid frameRate = true
      ∧ linearize tc frameRate = n := by
  by_cases hd : frameRate = SMPTE2997DROP
  · subst hd
    have hfpd : framesPerDay SMPTE2997DROP = 2589408 := by
      simp [framesPerDay, SMPTE2997DROP, SMPTE25, SMPTE24, SMPTE2398]
    rw [hfpd] at h1
    obtain ⟨a1, a2, b1, b2, c1, c2, d1, d2, hskip, hsum⟩ := fieldsSmpte2997Drop_spec n h0 h1
    refine ⟨fieldsSmpte2997Drop n, formatFields_drop n, ?_, ?_⟩
    · rw [IsValid_iff _ _ hs]
      have : maxFrame SMPTE2997DROP = 29 := by
        simp [maxFrame, SMPTE2997DROP, SMPTE25, SMPTE24, SMPTE2398]
      rw [this]
      exact ⟨⟨a1, a2⟩, ⟨b1, b2⟩, ⟨c1, c2⟩, d1, d2⟩
    · rw [linearize_drop, drop_linearize_eq _ b1]
      split <;> omega
  · obtain ⟨tc, htc, hv⟩ := formatFields_valid_nondrop n frameRate hs hd h0
    refine ⟨tc, htc, hv, ?_⟩
    rcases hs with h | h | h | h | h | h <;> subst h
    · simp [formatFields] at htc
      subst htc
      rw [fieldsSmpte2398_eq n h0]
      simp [framesPerDay] at h1
      simp [linearize, TimeCode.ParseIntSmpte2398]
      omega
    · simp [formatFields, SMPTE24, SMPTE2398] at htc
      subst htc
      rw [fieldsSmpte24_eq_2398, fieldsSmpte2398_eq n h0]
      simp [framesPerDay, SMPTE24, SMPTE2398] at h1
      simp [linearize, TimeCode.ParseIntSmpte24, SMPTE24, SMPTE2398]
      omega
    · simp [formatFields, SMPTE25, SMPTE24, SMPTE2398] at htc
      subst htc
      rw [fieldsSmpte25_eq n h0]
      simp [framesPerDay, SMPTE25, SMPTE24, SMPTE2398] at h1
      simp [linearize, TimeCode.ParseIntSmpte25, SMPTE25, SMPTE24, SMPTE2398]
      omega
    · exact absurd rfl hd
    · simp [formatFields, SMPTE2997NONDROP, SMPTE2997DROP, SMPTE25, SMPTE24, SMPTE2398] at htc
      subst htc
      rw [fieldsSmpte2997NonDrop_eq_30, fieldsSmpte30_eq n h0]
      simp [framesPerDay, SMPTE2997NONDROP, SMPTE2997DROP, SMPTE25, SMPTE24, SMPTE2398] at h1
      simp [linearize, TimeCode.ParseIntSmpte2997NonDrop, SMPTE2997NONDROP, SMPTE2997DROP,
        SMPTE25, SMPTE24, SMPTE2398]
      omega
    · simp [formatFields, SMPTE30, SMPTE2997NONDROP, SMPTE2997DROP, SMPTE25, SMPTE24,
        SMPTE2398] at htc
      subst htc
      rw [fieldsSmpte30_eq n h0]
      simp [framesPerDay, SMPTE30, SMPTE2997NONDROP, SMPTE2997DROP, SMPTE25, SMPTE24,
        SMPTE2398] at h1
      simp [linearize, TimeCode.ParseIntSmpte30, SMPTE30, SMPTE2997NONDROP, SMPTE2997DROP,
        SMPTE25, SMPTE24, SMPTE2398]
      omega

/-! ## Texts that match the grammar -/

theorem MatchesGrammar_iff (s : GoString) :
    MatchesGrammar s ↔ ∃ tm, parseSmpte s = .ok tm := by
  unfold MatchesGrammar
  rcases parseSmpte_cases s with ⟨hf, hp⟩ | ⟨d1, d2, d3, d4, sep, -, -, -, -, -, -, hf, hp⟩
  · simp [hf, hp]
  · simp [hf, hp]

theorem not_MatchesGrammar_iff (s : GoString) :
    ¬ MatchesGrammar s ↔ parseSmpte s = .error errInvalidValue := by
  unfold MatchesGrammar
  rcases parseSmpte_cases s with ⟨hf, hp⟩ | ⟨d1, d2, d3, d4, sep, -, -, -, -, -, -, hf, hp⟩
  · simp [hf, hp, errInvalidValue]
  · simp [hf, hp]

theorem parseSmpte_error_eq (s : GoString) (e : GoError) (h : parseSmpte s = .error e) :
    e = errInvalidValue := by
  rcases parseSmpte_cases s with ⟨-, hp⟩ | ⟨d1, d2, d3, d4, sep, -, -, -, -, -, -, -, hp⟩
  · rw [hp] at h
    simp only [Except.error.injEq] at h
    exact h.symm
  · rw [hp] at h
    cases h

/-! ## Settled claims -/

/-- C1: round trip tuple -> frame count -> text -> tuple.  For every tuple
valid for a rate (hence for each of the six rates), parsing at that rate
the text that FormatString prints for the linearization of the tuple
succeeds and returns the tuple itself; only at SMPTE2997DROP, for a tuple
with minutes % 10 != 0, seconds = 0 and frames 0 or 1, it returns the tuple
with frames replaced by 2. -/
theorem C1_roundtrip_tuple (tm : TimeCode) (frameRate : FrameRate)
    (hv : tm.IsValid frameRate = true) :
    ParseTimeCode (FormatString (linearize tm frameRate) frameRate) frameRate
      = .ok (if frameRate = SMPTE2997DROP ∧ tm.mm % 10 ≠ 0 ∧ tm.ss = 0
                ∧ (tm.ff = 0 ∨ tm.ff = 1)
             then TimeCode.mk tm.hh tm.mm tm.ss 2 else tm) := by
  have hsup := IsValid_supported tm frameRate hv
  have hfields := formatFields_linearize tm frameRate hv
  obtain ⟨tc, htc⟩ : ∃ tc, tc = (if frameRate = SMPTE2997DROP ∧ tm.mm % 10 ≠ 0 ∧ tm.ss = 0
      ∧ (tm.ff = 0 ∨ tm.ff = 1) then TimeCode.mk tm.hh tm.mm tm.ss 2 else tm) := ⟨_, rfl⟩
  rw [← htc] at hfields ⊢
  have hvalid : tc.IsValid frameRate = true := by
    rw [htc]
    split
    · rename_i hc
      obtain ⟨hr, -⟩ := hc
      subst hr
      have h := (IsValid_iff tm _ hsup).1 hv
      rw [IsValid_iff _ _ hsup]
      have hmax : maxFrame SMPTE2997DROP = 29 := by
        simp [maxFrame, SMPTE2997DROP, SMPTE25, SMPTE24, SMPTE2398]
      rw [hmax] at h ⊢
      exact ⟨h.1, h.2.1, h.2.2.1, by norm_num, by norm_num⟩
    · exact hv
  have hr := (IsValid_iff tc frameRate hsup).1 hvalid
  have hmax : maxFrame frameRate ≤ 29 := by
    rcases hsup with h | h | h | h | h | h <;> subst h <;>
      simp [maxFrame, SMPTE30, SMPTE2997NONDROP, SMPTE2997DROP, SMPTE25, SMPTE24, SMPTE2398]
  have hp := parseSmpte_FormatString (linearize tm frameRate) frameRate tc hfields
    ⟨hr.1.1, by omega⟩ ⟨hr.2.1.1, by omega⟩ ⟨hr.2.2.1.1, by omega⟩ ⟨hr.2.2.2.1, by omega⟩
  rw [parseTimeCode_of_ok _ tc frameRate hp, if_pos hvalid]

/-- Witness of C1 at the skipped label 00:01:00:00 of the drop-frame rate. -/
theorem C1_roundtrip_tuple_witness :
    (TimeCode.mk 0 1 0 0).IsValid SMPTE2997DROP = true
    ∧ ParseTimeCode (FormatString (linearize (TimeCode.mk 0 1 0 0) SMPTE2997DROP) SMPTE2997DROP)
        SMPTE2997DROP = .ok (TimeCode.mk 0 1 0 2) :=
  ⟨by decide, C1_roundtrip_tuple (TimeCode.mk 0 1 0 0) SMPTE2997DROP (by decide)⟩

/-- C2: round trip frame count -> text -> frame count.  For each of the six
rates and every n with 0 <= n < framesPerDay(rate), ParseInt of the text
that FormatString prints for n succeeds and returns n; the frames per day
are 2073600, 2073600, 2160000, 2589408, 2592000 and 2592000. -/
theorem C2_roundtrip_count (n : Int) (frameRate : FrameRate) (hs : Supported frameRate)
    (h0 : 0 ≤ n) (h1 : n < framesPerDay frameRate) :
    ParseInt (FormatString n frameRate) frameRate = (n, none)
    ∧ framesPerDay SMPTE2398 = 2073600 ∧ framesPerDay SMPTE24 = 2073600
    ∧ framesPerDay SMPTE25 = 2160000 ∧ framesPerDay SMPTE2997DROP = 2589408
    ∧ framesPerDay SMPTE2997NONDROP = 2592000 ∧ framesPerDay SMPTE30 = 2592000 := by
  refine ⟨?_, by decide, by decide, by decide, by decide, by decide, by decide⟩
  obtain ⟨tc, htc, hv, hlin⟩ := linearize_formatFields n frameRate hs h0 h1
  have hr := (IsValid_iff tc frameRate hs).1 hv
  have hmax : maxFrame frameRate ≤ 29 := by
    rcases hs with h | h | h | h | h | h <;> subst h <;>
      simp [maxFrame, SMPTE30, SMPTE2997NONDROP, SMPTE2997DROP, SMPTE25, SMPTE24, SMPTE2398]
  have hp := parseSmpte_FormatString n frameRate tc htc
    ⟨hr.1.1, by omega⟩ ⟨hr.2.1.1, by omega⟩ ⟨hr.2.2.1.1, by omega⟩ ⟨hr.2.2.2.1, by omega⟩
  rw [ParseInt_of_ok _ tc frameRate hp hs, if_pos hv, hlin]

/-- Witness of C2 at the last count of a drop-frame day. -/
theorem C2_roundtrip_count_witness :
    Supported SMPTE2997DROP ∧ (0 : Int) ≤ 2589407 ∧ 2589407 < framesPerDay SMPTE2997DROP
    ∧ ParseInt (FormatString 2589407 SMPTE2997DROP) SMPTE2997DROP = (2589407, none) :=
  ⟨Or.inr (Or.inr (Or.inr (Or.inl rfl))), by decide, by decide,
    (C2_roundtrip_count 2589407 SMPTE2997DROP (Or.inr (Or.inr (Or.inr (Or.inl rfl))))
      (by decide) (by decide)).1⟩

/-- C3: drop-frame correction.  At SMPTE2997DROP, for texts that parse to
the tuples (h, m, 0, 0), (h, m, 0, 1), (h, m, 0, 2) with h in 0..23 and m
in 0..59: when m % 10 != 0, ParseInt returns the same frame count for all
three; when m % 10 = 0 the three counts are pairwise different.  So
"00:01:00:00" and "00:01:00:02" give equal counts, "00:10:00:00" and
"00:10:00:02" different ones. -/
theorem C3_drop_correction (h m : Int) (s0 s1 s2 : GoString)
    (hh : 0 ≤ h ∧ h ≤ 23) (hm : 0 ≤ m ∧ m ≤ 59)
    (p0 : parseSmpte s0 = .ok (TimeCode.mk h m 0 0))
    (p1 : parseSmpte s1 = .ok (TimeCode.mk h m 0 1))
    (p2 : parseSmpte s2 = .ok (TimeCode.mk h m 0 2)) :
    (m % 10 ≠ 0 → ∃ v, ParseInt s0 SMPTE2997DROP = (v, none)
        ∧ ParseInt s1 SMPTE2997DROP = (v, none) ∧ ParseInt s2 SMPTE2997DROP = (v, none))
    ∧ (m % 10 = 0 → ∃ v0 v1 v2, ParseInt s0 SMPTE2997DROP = (v0, none)
        ∧ ParseInt s1 SMPTE2997DROP = (v1, none) ∧ ParseInt s2 SMPTE2997DROP = (v2, none)
        ∧ v0 ≠ v1 ∧ v1 ≠ v2 ∧ v0 ≠ v2)
    ∧ ParseInt "00:01:00:00".toList SMPTE2997DROP = ParseInt "00:01:00:02".toList SMPTE2997DROP
    ∧ ParseInt "00:10:00:00".toList SMPTE2997DROP ≠ ParseInt "00:10:00:02".toList SMPTE2997DROP := by
  have hs : Supported SMPTE2997DROP := Or.inr (Or.inr (Or.inr (Or.inl rfl)))
  have hmax : maxFrame SMPTE2997DROP = 29 := by decide
  have v0 : (TimeCode.mk h m 0 0).IsValid SMPTE2997DROP = true := by
    rw [IsValid_iff _ _ hs, hmax]; simp; omega
  have v1 : (TimeCode.mk h m 0 1).IsValid SMPTE2997DROP = true := by
    rw [IsValid_iff _ _ hs, hmax]; simp; omega
  have v2 : (TimeCode.mk h m 0 2).IsValid SMPTE2997DROP = true := by
    rw [IsValid_iff _ _ hs, hmax]; simp; omega
  have l0 := drop_linearize_eq (TimeCode.mk h m 0 0) hm.1
  have l1 := drop_linearize_eq (TimeCode.mk h m 0 1) hm.1
  have l2 := drop_linearize_eq (TimeCode.mk h m 0 2) hm.1
  simp only at l0 l1 l2
  rw [ParseInt_of_ok s0 _ _ p0 hs, ParseInt_of_ok s1 _ _ p1 hs, ParseInt_of_ok s2 _ _ p2 hs,
    if_pos v0, if_pos v1, if_pos v2, linearize_drop, linearize_drop, linearize_drop, l0, l1, l2]
  refine ⟨?_, ?_, by decide, by decide⟩
  · intro hne
    refine ⟨2 + 30 * 0 + 1798 * m + (2 * (m / 10) + 107892 * h), ?_, ?_, ?_⟩ <;>
      simp [hne]
  · intro he
    refine ⟨_, _, _, rfl, rfl, rfl, ?_, ?_, ?_⟩ <;> simp [he]

/-- Witness of C3 at minute 1, with the three texts 00:01:00:00,
00:01:00:01 and 00:01:00:02. -/
theorem C3_drop_correction_witness :
    ∃ v, ParseInt "00:01:00:00".toList SMPTE2997DROP = (v, none)
      ∧ ParseInt "00:01:00:01".toList SMPTE2997DROP = (v, none)
      ∧ ParseInt "00:01:00:02".toList SMPTE2997DROP = (v, none) :=
  (C3_drop_correction 0 1 "00:01:00:00".toList "00:01:00:01".toList "00:01:00:02".toList
    (by decide) (by decide) (by rfl) (by rfl) (by rfl)).1 (by decide)

/-- C4: duration is the modular difference.  For texts in, out that parse
and whose tuples are valid for the rate (hence for each of the six rates),
ParseDuration succeeds with a value d, 0 <= d < framesPerDay(rate), such
that (ParseInt(in) + d) mod framesPerDay(rate) = ParseInt(out); d is
ParseInt(out) - ParseInt(in) when ParseInt(in) <= ParseInt(out) and
framesPerDay + ParseInt(out) - ParseInt(in) otherwise; and
ParseDuration("23:59:59:29", "00:00:00:00", SMPTE30) = 1. -/
theorem C4_duration_modular (inText outText : GoString) (tmIn tmOut : TimeCode)
    (frameRate : FrameRate)
    (hi : parseSmpte inText = .ok tmIn) (ho : parseSmpte outText = .ok tmOut)
    (hvi : tmIn.IsValid frameRate = true) (hvo : tmOut.IsValid frameRate = true) :
    (∃ d a b, ParseDuration inText outText frameRate = (d, none)
      ∧ ParseInt inText frameRate = (a, none) ∧ ParseInt outText frameRate = (b, none)
      ∧ 0 ≤ d ∧ d < framesPerDay frameRate ∧ (a + d) % framesPerDay frameRate = b
      ∧ (a ≤ b → d = b - a) ∧ (b < a → d = framesPerDay frameRate + b - a))
    ∧ ParseDuration "23:59:59:29".toList "00:00:00:00".toList SMPTE30 = (1, none) := by
  refine ⟨?_, by rfl⟩
  have hs := IsValid_supported tmIn frameRate hvi
  obtain ⟨a0, a1⟩ := linearize_bounds tmIn frameRate hvi
  obtain ⟨b0, b1⟩ := linearize_bounds tmOut frameRate hvo
  have hfpd : 0 ≤ framesPerDay frameRate := by omega
  have hmod : goMod (linearize tmOut frameRate) (framesPerDay frameRate)
      = linearize tmOut frameRate := by
    rw [goMod_eq b0 hfpd]
    exact Int.emod_eq_of_lt b0 b1
  rw [ParseDuration_of_ok _ _ _ _ _ hi ho hs, ParseInt_of_ok _ _ _ hi hs,
    ParseInt_of_ok _ _ _ ho hs, if_pos hvi, if_pos hvo, if_pos ⟨hvi, hvo⟩, hmod]
  clear hmod hfpd
  generalize linearize tmIn frameRate = a at a0 a1 ⊢
  generalize linearize tmOut frameRate = b at b0 b1 ⊢
  generalize framesPerDay frameRate = F at a1 b1 ⊢
  by_cases hgt : a > b
  · rw [if_pos hgt]
    refine ⟨F + b - a, a, b, rfl, rfl, rfl, by omega, by omega, ?_, by omega, fun _ => rfl⟩
    have : a + (F + b - a) = b + F := by ring
    rw [this, Int.add_emod_self]
    exact Int.emod_eq_of_lt b0 b1
  · rw [if_neg hgt]
    refine ⟨b - a, a, b, rfl, rfl, rfl, by omega, by omega, ?_, fun _ => rfl, by omega⟩
    have : a + (b - a) = b := by ring
    rw [this]
    exact Int.emod_eq_of_lt b0 b1

/-- Witness of C4 across the day boundary at 30 fps. -/
theorem C4_duration_modular_witness :
    ∃ d a b, ParseDuration "23:59:59:29".toList "00:00:00:00".toList SMPTE30 = (d, none)
      ∧ ParseInt "23:59:59:29".toList SMPTE30 = (a, none)
      ∧ ParseInt "00:00:00:00".toList SMPTE30 = (b, none)
      ∧ 0 ≤ d ∧ d < framesPerDay SMPTE30 ∧ (a + d) % framesPerDay SMPTE30 = b
      ∧ (a ≤ b → d = b - a) ∧ (b < a → d = framesPerDay SMPTE30 + b - a) :=
  (C4_duration_modular "23:59:59:29".toList "00:00:00:00".toList (TimeCode.mk 23 59 59 29)
    (TimeCode.mk 0 0 0 0) SMPTE30 (by rfl) (by rfl) (by decide) (by decide)).1

/-- C5: non-drop linearization formula.  For every text that parses to a
tuple (hh, mm, ss, ff) valid for a non-drop rate, ParseInt returns
ff + fps*ss + (60*fps)*mm + (3600*fps)*hh, with fps = 24 for SMPTE2398 and
SMPTE24, fps = 25 for SMPTE25, fps = 30 for SMPTE2997NONDROP and SMPTE30. -/
theorem C5_nondrop_formula (s : GoString) (tm : TimeCode) (frameRate : FrameRate) (fps : Int)
    (hrate : (fps = 24 ∧ (frameRate = SMPTE2398 ∨ frameRate = SMPTE24))
      ∨ (fps = 25 ∧ frameRate = SMPTE25)
      ∨ (fps = 30 ∧ (frameRate = SMPTE2997NONDROP ∨ frameRate = SMPTE30)))
    (hp : parseSmpte s = .ok tm) (hv : tm.IsValid frameRate = true) :
    ParseInt s frameRate
      = (tm.ff + fps * tm.ss + (60 * fps) * tm.mm + (3600 * fps) * tm.hh, none) := by
  have hs := IsValid_supported tm frameRate hv
  rw [ParseInt_of_ok s tm frameRate hp hs, if_pos hv]
  rcases hrate with ⟨hf, h | h⟩ | ⟨hf, h⟩ | ⟨hf, h | h⟩ <;> subst hf <;> subst h <;>
    simp [linearize, TimeCode.ParseIntSmpte2398, TimeCode.ParseIntSmpte24,
      TimeCode.ParseIntSmpte25, TimeCode.ParseIntSmpte2997NonDrop, TimeCode.ParseIntSmpte30,
      SMPTE30, SMPTE2997NONDROP, SMPTE2997DROP, SMPTE25, SMPTE24, SMPTE2398]

/-- Witness of C5 at the text 01:02:03:04 and the rate SMPTE25. -/
theorem C5_nondrop_formula_witness :
    ParseInt "01:02:03:04".toList SMPTE25
      = ((4 : Int) + 25 * 3 + (60 * 25) * 2 + (3600 * 25) * 1, none) :=
  C5_nondrop_formula "01:02:03:04".toList (TimeCode.mk 1 2 3 4) SMPTE25 25
    (Or.inr (Or.inl ⟨rfl, rfl⟩)) (by rfl) (by decide)

/-- C6: validity table.  For every tuple of arbitrary integers and each of
the six rates, tm.IsValid(rate) is true if and only if 0 <= hh <= 23,
0 <= mm <= 59, 0 <= ss <= 59 and 0 <= ff <= maxFrame(rate), where maxFrame
is 23 for SMPTE2398 and SMPTE24, 24 for SMPTE25 and 29 for SMPTE2997DROP,
SMPTE2997NONDROP and SMPTE30.  In particular, the other fields being in
range, ff = 24 is valid for SMPTE25 and invalid for SMPTE24, ff = 29 is
valid and ff = 30 invalid for the three 30-family rates. -/
theorem C6_validity_table (tm : TimeCode) (frameRate : FrameRate) (hs : Supported frameRate) :
    (tm.IsValid frameRate = true ↔
      (0 ≤ tm.hh ∧ tm.hh ≤ 23) ∧ (0 ≤ tm.mm ∧ tm.mm ≤ 59) ∧ (0 ≤ tm.ss ∧ tm.ss ≤ 59)
        ∧ (0 ≤ tm.ff ∧ tm.ff ≤ maxFrame frameRate))
    ∧ (maxFrame SMPTE2398 = 23 ∧ maxFrame SMPTE24 = 23 ∧ maxFrame SMPTE25 = 24
        ∧ maxFrame SMPTE2997DROP = 29 ∧ maxFrame SMPTE2997NONDROP = 29 ∧ maxFrame SMPTE30 = 29)
    ∧ ((0 ≤ tm.hh ∧ tm.hh ≤ 23) ∧ (0 ≤ tm.mm ∧ tm.mm ≤ 59) ∧ (0 ≤ tm.ss ∧ tm.ss ≤ 59) →
        (TimeCode.mk tm.hh tm.mm tm.ss 24).IsValid SMPTE25 = true
        ∧ (TimeCode.mk tm.hh tm.mm tm.ss 24).IsValid SMPTE24 = false
        ∧ (TimeCode.mk tm.hh tm.mm tm.ss 29).IsValid SMPTE2997DROP = true
        ∧ (TimeCode.mk tm.hh tm.mm tm.ss 29).IsValid SMPTE2997NONDROP = true
        ∧ (TimeCode.mk tm.hh tm.mm tm.ss 29).IsValid SMPTE30 = true
        ∧ (TimeCode.mk tm.hh tm.mm tm.ss 30).IsValid SMPTE2997DROP = false
        ∧ (TimeCode.mk tm.hh tm.mm tm.ss 30).IsValid SMPTE2997NONDROP = false
        ∧ (TimeCode.mk tm.hh tm.mm tm.ss 30).IsValid SMPTE30 = false) := by
  refine ⟨IsValid_iff tm frameRate hs, by decide, ?_⟩
  intro hr
  have s24 : Supported SMPTE24 := Or.inr (Or.inl rfl)
  have s25 : Supported SMPTE25 := Or.inr (Or.inr (Or.inl rfl))
  have sd : Supported SMPTE2997DROP := Or.inr (Or.inr (Or.inr (Or.inl rfl)))
  have sn : Supported SMPTE2997NONDROP := Or.inr (Or.inr (Or.inr (Or.inr (Or.inl rfl))))
  have s30 : Supported SMPTE30 := Or.inr (Or.inr (Or.inr (Or.inr (Or.inr rfl))))
  have m24 : maxFrame SMPTE24 = 23 := by decide
  have m25 : maxFrame SMPTE25 = 24 := by decide
  have md : maxFrame SMPTE2997DROP = 29 := by decide
  have mn : maxFrame SMPTE2997NONDROP = 29 := by decide
  have m30 : maxFrame SMPTE30 = 29 := by decide
  refine ⟨?_, ?_, ?_, ?_, ?_, ?_, ?_, ?_⟩
  · rw [IsValid_iff _ _ s25, m25]; simp; omega
  · rw [← Bool.not_eq_true, IsValid_iff _ _ s24, m24]; simp
  · rw [IsValid_iff _ _ sd, md]; simp; omega
  · rw [IsValid_iff _ _ sn, mn]; simp; omega
  · rw [IsValid_iff _ _ s30, m30]; simp; omega
  · rw [← Bool.not_eq_true, IsValid_iff _ _ sd, md]; simp
  · rw [← Bool.not_eq_true, IsValid_iff _ _ sn, mn]; simp
  · rw [← Bool.not_eq_true, IsValid_iff _ _ s30, m30]; simp

/-- Witness of C6 at the tuple (23, 59, 59, 24) and the rate SMPTE25. -/
theorem C6_validity_table_witness :
    Supported SMPTE25 ∧
    ((TimeCode.mk 23 59 59 24).IsValid SMPTE25 = true ↔
      (0 ≤ (23 : Int) ∧ (23 : Int) ≤ 23) ∧ (0 ≤ (59 : Int) ∧ (59 : Int) ≤ 59)
        ∧ (0 ≤ (59 : Int) ∧ (59 : Int) ≤ 59) ∧ (0 ≤ (24 : Int) ∧ (24 : Int) ≤ maxFrame SMPTE25)) :=
  ⟨Or.inr (Or.inr (Or.inl rfl)),
    (C6_validity_table (TimeCode.mk 23 59 59 24) SMPTE25 (Or.inr (Or.inr (Or.inl rfl)))).1⟩

/-- C7, evaluated at the failing input: at SMPTE2997DROP the count 2589408,
the first one past a day, is delinearized to the fields (0, 1439, 60, 0),
formatted as 00:1439:60;00; the minutes and seconds are outside 0..59 and
the tuple is not valid for the rate.  The sibling formatter of SMPTE30 wraps
its first count past a day, 2592000, to the valid tuple (0, 0, 0, 0). -/
theorem C7_drop_beyond_day :
    formatFields 2589408 SMPTE2997DROP = some (TimeCode.mk 0 1439 60 0)
    ∧ FormatString 2589408 SMPTE2997DROP = "00:1439:60;00".toList
    ∧ (TimeCode.mk 0 1439 60 0).IsValid SMPTE2997DROP = false
    ∧ formatFields 2592000 SMPTE30 = some (TimeCode.mk 0 0 0 0)
    ∧ (TimeCode.mk 0 0 0 0).IsValid SMPTE30 = true := by
  refine ⟨by rfl, by rfl, by decide, by rfl, by decide⟩

/-- C8: unsupported rate.  For every rate outside the six and texts that
match the grammar, ParseInt and ParseDuration fail with the error
"invalid frame rate"; ParseTimeCode however fails with the error
"value out of range", which is a different error. -/
theorem C8_unsupported_rate (frameRate : FrameRate) (s inText outText : GoString)
    (hn : ¬ Supported frameRate) (hs : MatchesGrammar s) (hi : MatchesGrammar inText)
    (ho : MatchesGrammar outText) :
    ParseInt s frameRate = (0, some (GoError.errorsNew "invalid frame rate"))
    ∧ ParseDuration inText outText frameRate
        = (0, some (GoError.errorsNew "invalid frame rate"))
    ∧ ParseTimeCode s frameRate = .error (GoError.errorsNew "value out of range")
    ∧ GoError.errorsNew "value out of range" ≠ GoError.errorsNew "invalid frame rate" := by
  obtain ⟨tm, hp⟩ := (MatchesGrammar_iff s).1 hs
  obtain ⟨tmIn, hpi⟩ := (MatchesGrammar_iff inText).1 hi
  obtain ⟨tmOut, hpo⟩ := (MatchesGrammar_iff outText).1 ho
  refine ⟨ParseInt_unsupported s tm frameRate hp hn,
    ParseDuration_unsupported inText outText tmIn tmOut frameRate hpi hpo hn, ?_, by decide⟩
  rw [parseTimeCode_of_ok s tm frameRate hp, IsValid_unsupported tm frameRate hn]
  rfl

/-- Witness of C8 at the text 00:00:00:00 and the rate value 6. -/
theorem C8_unsupported_rate_witness :
    ¬ Supported 6 ∧ MatchesGrammar "00:00:00:00".toList
    ∧ ParseInt "00:00:00:00".toList 6 = (0, some (GoError.errorsNew "invalid frame rate"))
    ∧ ParseTimeCode "00:00:00:00".toList 6 = .error (GoError.errorsNew "value out of range") :=
  have h6 : ¬ Supported 6 := by decide
  have hm : MatchesGrammar "00:00:00:00".toList := by decide
  have h := C8_unsupported_rate 6 "00:00:00:00".toList "00:00:00:00".toList
    "00:00:00:00".toList h6 hm hm hm
  ⟨h6, hm, h.1, h.2.2.1⟩

/-- C9: no fallback result for an unsupported rate.  For every rate outside
the six and every input, ParseInt, ParseDuration and ParseTimeCode return
an error (ParseInt and ParseDuration with the result 0, ParseTimeCode with
no TimeCode), FormatString returns the empty string for every frame count,
and tm.IsValid returns false for every tuple. -/
theorem C9_no_fallback (frameRate : FrameRate) (hn : ¬ Supported frameRate)
    (s inText outText : GoString) (n : Int) (tm : TimeCode) :
    (∃ e, ParseInt s frameRate = (0, some e))
    ∧ (∃ e, ParseDuration inText outText frameRate = (0, some e))
    ∧ (∃ e, ParseTimeCode s frameRate = .error e)
    ∧ FormatString n frameRate = []
    ∧ tm.IsValid frameRate = false := by
  obtain ⟨h1, h2, h3, h4, h5, h6⟩ := not_supported_ne hn
  refine ⟨?_, ?_, ?_, ?_, IsValid_unsupported tm frameRate hn⟩
  · cases hp : parseSmpte s with
    | error e => exact ⟨e, ParseInt_of_error s frameRate e hp⟩
    | ok t => exact ⟨_, ParseInt_unsupported s t frameRate hp hn⟩
  · cases hpi : parseSmpte inText with
    | error e => exact ⟨e, by simp [ParseDuration, hpi]⟩
    | ok ti =>
      cases hpo : parseSmpte outText with
      | error e => exact ⟨e, by simp [ParseDuration, hpi, hpo]⟩
      | ok tj => exact ⟨_, ParseDuration_unsupported inText outText ti tj frameRate hpi hpo hn⟩
  · cases hp : parseSmpte s with
    | error e => exact ⟨e, parseTimeCode_of_error s frameRate e hp⟩
    | ok t =>
      refine ⟨errOutOfRange, ?_⟩
      rw [parseTimeCode_of_ok s t frameRate hp, IsValid_unsupported t frameRate hn]
      rfl
  · simp [FormatString, h1, h2, h3, h4, h5, h6]

/-- Witness of C9 at the rate value 6, a well-formed text and the count
100. -/
theorem C9_no_fallback_witness :
    ¬ Supported 6
    ∧ (∃ e, ParseInt "01:02:03:04".toList 6 = (0, some e))
    ∧ (∃ e, ParseDuration "01:02:03:04".toList "01:02:03:05".toList 6 = (0, some e))
    ∧ (∃ e, ParseTimeCode "01:02:03:04".toList 6 = .error e)
    ∧ FormatString 100 6 = []
    ∧ (TimeCode.mk 1 2 3 4).IsValid 6 = false :=
  ⟨by decide, C9_no_fallback 6 (by decide) "01:02:03:04".toList "01:02:03:04".toList
    "01:02:03:05".toList 100 (TimeCode.mk 1 2 3 4)⟩

/-- C10: error taxonomy of parsing with a supported rate.  For each of the
six rates and every string s, ParseTimeCode and ParseInt succeed exactly
when s matches the grammar and its tuple is valid for the rate; they fail
with the error "invalid value" exactly when s does not match the grammar,
and with the error "value out of range" exactly when s matches and its
tuple is not valid for the rate.  The text 25:00:00:00 matches the grammar
and is rejected as out of range at every one of the six rates. -/
theorem C10_error_taxonomy (frameRate : FrameRate) (s : GoString) (hs : Supported frameRate) :
    ((∃ tm, ParseTimeCode s frameRate = .ok tm)
        ↔ MatchesGrammar s ∧ ∃ tm, parseSmpte s = .ok tm ∧ tm.IsValid frameRate = true)
    ∧ ((∃ v, ParseInt s frameRate = (v, none))
        ↔ MatchesGrammar s ∧ ∃ tm, parseSmpte s = .ok tm ∧ tm.IsValid frameRate = true)
    ∧ (ParseTimeCode s frameRate = .error (GoError.errorsNew "invalid value")
        ↔ ¬ MatchesGrammar s)
    ∧ (ParseInt s frameRate = (0, some (GoError.errorsNew "invalid value"))
        ↔ ¬ MatchesGrammar s)
    ∧ (ParseTimeCode s frameRate = .error (GoError.errorsNew "value out of range")
        ↔ MatchesGrammar s ∧ ∃ tm, parseSmpte s = .ok tm ∧ tm.IsValid frameRate = false)
    ∧ (ParseInt s frameRate = (0, some (GoError.errorsNew "value out of range"))
        ↔ MatchesGrammar s ∧ ∃ tm, parseSmpte s = .ok tm ∧ tm.IsValid frameRate = false)
    ∧ (MatchesGrammar "25:00:00:00".toList
        ∧ ParseTimeCode "25:00:00:00".toList frameRate
            = .error (GoError.errorsNew "value out of range")
        ∧ ParseInt "25:00:00:00".toList frameRate
            = (0, some (GoError.errorsNew "value out of range"))) := by
  have hex : MatchesGrammar "25:00:00:00".toList
      ∧ ParseTimeCode "25:00:00:00".toList frameRate
          = .error (GoError.errorsNew "value out of range")
      ∧ ParseInt "25:00:00:00".toList frameRate
          = (0, some (GoError.errorsNew "value out of range")) := by
    have hp : parseSmpte "25:00:00:00".toList = .ok (TimeCode.mk 25 0 0 0) := by rfl
    have hv : (TimeCode.mk 25 0 0 0).IsValid frameRate = false := by
      rw [← Bool.not_eq_true, IsValid_iff _ _ hs]
      simp
    refine ⟨by decide, ?_, ?_⟩
    · rw [parseTimeCode_of_ok _ _ frameRate hp, hv]
      rfl
    · rw [ParseInt_of_ok _ _ frameRate hp hs, hv]
      rfl
  refine ⟨?_, ?_, ?_, ?_, ?_, ?_, hex⟩ <;>
  · cases hp : parseSmpte s with
    | error e =>
      have he := parseSmpte_error_eq s e hp
      subst he
      have hnm : ¬ MatchesGrammar s := (not_MatchesGrammar_iff s).2 hp
      simp [parseTimeCode_of_error s frameRate _ hp, ParseInt_of_error s frameRate _ hp, hnm,
        errInvalidValue]
    | ok t =>
      have hm : MatchesGrammar s := (MatchesGrammar_iff s).2 ⟨t, hp⟩
      cases hv : t.IsValid frameRate <;>
        simp [parseTimeCode_of_ok s t frameRate hp, ParseInt_of_ok s t frameRate hp hs, hm, hv,
          errOutOfRange]

/-- Witness of C10 at the rate SMPTE24 and the text 25:00:00:00. -/
theorem C10_error_taxonomy_witness :
    Supported SMPTE24
    ∧ ParseTimeCode "25:00:00:00".toList SMPTE24 = .error (GoError.errorsNew "value out of range")
    ∧ (ParseInt "1:2:3".toList SMPTE24 = (0, some (GoError.errorsNew "invalid value"))
        ↔ ¬ MatchesGrammar "1:2:3".toList) :=
  ⟨Or.inr (Or.inl rfl),
    (C10_error_taxonomy SMPTE24 "25:00:00:00".toList (Or.inr (Or.inl rfl))).2.2.2.2.2.2.2.1,
    (C10_error_taxonomy SMPTE24 "1:2:3".toList (Or.inr (Or.inl rfl))).2.2.2.1⟩

theorem ParseDuration_of_error_in (inText outText : GoString) (frameRate : FrameRate)
    (e : GoError) (hi : parseSmpte inText = .error e) :
    ParseDuration inText outText frameRate = (0, some e) := by
  simp [ParseDuration, hi]

theorem ParseDuration_of_error_out (inText outText : GoString) (frameRate : FrameRate)
    (tmIn : TimeCode) (e : GoError) (hi : parseSmpte inText = .ok tmIn)
    (ho : parseSmpte outText = .error e) :
    ParseDuration inText outText frameRate = (0, some e) := by
  simp [ParseDuration, hi, ho]

/-- C11: duration validates both endpoints before computing.  For each of
the six rates and all strings in, out: ParseDuration returns an error, with
the result 0, if and only if at least one of in, out fails to match the
grammar or has a tuple invalid for the rate; the error is "invalid value"
when either text fails the grammar and "value out of range" when both match
and either tuple is invalid; when both texts match with valid tuples it
succeeds. -/
theorem C11_duration_validates (inText outText : GoString) (frameRate : FrameRate)
    (hs : Supported frameRate) :
    ((∃ e, ParseDuration inText outText frameRate = (0, some e))
        ↔ ¬ ValidText inText frameRate ∨ ¬ ValidText outText frameRate)
    ∧ ((ParseDuration inText outText frameRate).2 ≠ none
        ↔ ¬ ValidText inText frameRate ∨ ¬ ValidText outText frameRate)
    ∧ (¬ MatchesGrammar inText ∨ ¬ MatchesGrammar outText →
        ParseDuration inText outText frameRate
          = (0, some (GoError.errorsNew "invalid value")))
    ∧ (MatchesGrammar inText ∧ MatchesGrammar outText
          ∧ (¬ ValidText inText frameRate ∨ ¬ ValidText outText frameRate) →
        ParseDuration inText outText frameRate
          = (0, some (GoError.errorsNew "value out of range")))
    ∧ (ValidText inText frameRate ∧ ValidText outText frameRate →
        ∃ d, ParseDuration inText outText frameRate = (d, none)) := by
  cases hi : parseSmpte inText with
  | error e =>
    have he := parseSmpte_error_eq inText e hi
    subst he
    have hnm : ¬ MatchesGrammar inText := (not_MatchesGrammar_iff inText).2 hi
    have hnv : ¬ ValidText inText frameRate := by
      rintro ⟨tm, hp, -⟩
      rw [hi] at hp
      cases hp
    rw [ParseDuration_of_error_in inText outText frameRate _ hi]
    simp [hnm, hnv, errInvalidValue]
  | ok tmIn =>
    have hmi : MatchesGrammar inText := (MatchesGrammar_iff inText).2 ⟨tmIn, hi⟩
    have hvi : ValidText inText frameRate ↔ tmIn.IsValid frameRate = true := by
      constructor
      · rintro ⟨tm, hp, hv⟩
        rw [hi] at hp
        cases hp
        exact hv
      · exact fun hv => ⟨tmIn, hi, hv⟩
    cases ho : parseSmpte outText with
    | error e =>
      have he := parseSmpte_error_eq outText e ho
      subst he
      have hnm : ¬ MatchesGrammar outText := (not_MatchesGrammar_iff outText).2 ho
      have hnv : ¬ ValidText outText frameRate := by
        rintro ⟨tm, hp, -⟩
        rw [ho] at hp
        cases hp
      rw [ParseDuration_of_error_out inText outText frameRate tmIn _ hi ho]
      simp [hnm, hnv, errInvalidValue]
    | ok tmOut =>
      have hmo : MatchesGrammar outText := (MatchesGrammar_iff outText).2 ⟨tmOut, ho⟩
      have hvo : ValidText outText frameRate ↔ tmOut.IsValid frameRate = true := by
        constructor
        · rintro ⟨tm, hp, hv⟩
          rw [ho] at hp
          cases hp
          exact hv
        · exact fun hv => ⟨tmOut, ho, hv⟩
      rw [ParseDuration_of_ok inText outText tmIn tmOut frameRate hi ho hs, hvi, hvo]
      by_cases h1 : tmIn.IsValid frameRate = true <;>
        by_cases h2 : tmOut.IsValid frameRate = true <;>
        simp [h1, h2, hmi, hmo, errOutOfRange]
      split_ifs <;> simp

/-- Witness of C11 at the rate SMPTE25, where the frames value 24 is valid
and the hours value 24 is not. -/
theorem C11_duration_validates_witness :
    Supported SMPTE25
    ∧ ((∃ e, ParseDuration "00:00:00:24".toList "24:00:00:00".toList SMPTE25 = (0, some e))
        ↔ ¬ ValidText "00:00:00:24".toList SMPTE25 ∨ ¬ ValidText "24:00:00:00".toList SMPTE25) :=
  ⟨Or.inr (Or.inr (Or.inl rfl)),
    (C11_duration_validates "00:00:00:24".toList "24:00:00:00".toList SMPTE25
      (Or.inr (Or.inr (Or.inl rfl)))).1⟩

/-- Counterexample to C12 as stated: for the rate value 6, outside the six
variants, FrameRate.String does not return the string "Unknown". -/
theorem C12_not_Unknown : FrameRate.String 6 ≠ "Unknown".toList := by decide

/-- C12, amended: FrameRate.String returns "SMPTE2398", "SMPTE24",
"SMPTE25", "SMPTE2997DROP", "SMPTE2997NONDROP", "SMPTE30" for the six
variants respectively, pairwise distinct, and for every FrameRate value
outside the six variants it returns the string "UnKnown" (capital K). -/
theorem C12_rate_names (fr : FrameRate) (hn : ¬ Supported fr) :
    FrameRate.String SMPTE2398 = "SMPTE2398".toList
    ∧ FrameRate.String SMPTE24 = "SMPTE24".toList
    ∧ FrameRate.String SMPTE25 = "SMPTE25".toList
    ∧ FrameRate.String SMPTE2997DROP = "SMPTE2997DROP".toList
    ∧ FrameRate.String SMPTE2997NONDROP = "SMPTE2997NONDROP".toList
    ∧ FrameRate.String SMPTE30 = "SMPTE30".toList
    ∧ [FrameRate.String SMPTE2398, FrameRate.String SMPTE24, FrameRate.String SMPTE25,
        FrameRate.String SMPTE2997DROP, FrameRate.String SMPTE2997NONDROP,
        FrameRate.String SMPTE30].Nodup
    ∧ FrameRate.String fr = "UnKnown".toList := by
  obtain ⟨h1, h2, h3, h4, h5, h6⟩ := not_supported_ne hn
  refine ⟨by decide, by decide, by decide, by decide, by decide, by decide, by decide, ?_⟩
  simp [FrameRate.String, h1, h2, h3, h4, h5, h6]

/-- Witness of C12 at the rate value -1. -/
theorem C12_rate_names_witness :
    ¬ Supported (-1) ∧ FrameRate.String (-1) = "UnKnown".toList :=
  ⟨by decide, (C12_rate_names (-1) (by decide)).2.2.2.2.2.2.2⟩

/-- C13: grammar acceptance and separator independence.  For all digit
strings h, m, s, f of length 1 or 2, the texts h:m:s:f, h:m:s;f and h:m:s.f
are all accepted (IsValid returns true) and parse to the same TimeCode,
whose four fields are the decimal values of h, m, s, f, each between 0 and
99; "01:02:03:04", "01:02:03;04", "01:02:03.04" and "1:2:3:4" all yield
TimeCode{1,2,3,4}. -/
theorem C13_grammar_acceptance (h m s f : GoString)
    (hh : Digits12 h) (hm : Digits12 m) (hs : Digits12 s) (hf : Digits12 f) :
    (IsValid (h ++ ':' :: (m ++ ':' :: (s ++ ':' :: f))) = true
      ∧ IsValid (h ++ ':' :: (m ++ ':' :: (s ++ ';' :: f))) = true
      ∧ IsValid (h ++ ':' :: (m ++ ':' :: (s ++ '.' :: f))) = true)
    ∧ (parseSmpte (h ++ ':' :: (m ++ ':' :: (s ++ ':' :: f)))
          = .ok (TimeCode.mk (decVal h) (decVal m) (decVal s) (decVal f))
      ∧ parseSmpte (h ++ ':' :: (m ++ ':' :: (s ++ ';' :: f)))
          = .ok (TimeCode.mk (decVal h) (decVal m) (decVal s) (decVal f))
      ∧ parseSmpte (h ++ ':' :: (m ++ ':' :: (s ++ '.' :: f)))
          = .ok (TimeCode.mk (decVal h) (decVal m) (decVal s) (decVal f)))
    ∧ ((0 ≤ decVal h ∧ decVal h ≤ 99) ∧ (0 ≤ decVal m ∧ decVal m ≤ 99)
      ∧ (0 ≤ decVal s ∧ decVal s ≤ 99) ∧ (0 ≤ decVal f ∧ decVal f ≤ 99))
    ∧ (parseSmpte "01:02:03:04".toList = .ok (TimeCode.mk 1 2 3 4)
      ∧ parseSmpte "01:02:03;04".toList = .ok (TimeCode.mk 1 2 3 4)
      ∧ parseSmpte "01:02:03.04".toList = .ok (TimeCode.mk 1 2 3 4)
      ∧ parseSmpte "1:2:3:4".toList = .ok (TimeCode.mk 1 2 3 4)) := by
  have p1 := parseSmpte_of_parts h m s f ':' hh hm hs hf (Or.inl rfl)
  have p2 := parseSmpte_of_parts h m s f ';' hh hm hs hf (Or.inr (Or.inl rfl))
  have p3 := parseSmpte_of_parts h m s f '.' hh hm hs hf (Or.inr (Or.inr rfl))
  refine ⟨⟨?_, ?_, ?_⟩, ⟨p1, p2, p3⟩,
    ⟨decVal_bounds h hh, decVal_bounds m hm, decVal_bounds s hs, decVal_bounds f hf⟩,
    ⟨by rfl, by rfl, by rfl, by rfl⟩⟩
  · simp [IsValid, p1]
  · simp [IsValid, p2]
  · simp [IsValid, p3]

/-- Witness of C13 at the digit strings 23, 5, 07, 9. -/
theorem C13_grammar_acceptance_witness :
    parseSmpte "23:5:07;9".toList = .ok (TimeCode.mk 23 5 7 9)
    ∧ parseSmpte "23:5:07.9".toList = .ok (TimeCode.mk 23 5 7 9)
    ∧ IsValid "23:5:07:9".toList = true :=
  have w := C13_grammar_acceptance ['2', '3'] ['5'] ['0', '7'] ['9']
    ⟨Or.inr rfl, by decide⟩ ⟨Or.inl rfl, by decide⟩ ⟨Or.inr rfl, by decide⟩
    ⟨Or.inl rfl, by decide⟩
  ⟨w.2.1.2.1, w.2.1.2.2, w.1.1⟩

theorem IsValid_iff_parts (s : GoString) :
    IsValid s = true ↔ ∃ h m sec f sep, Digits12 h ∧ Digits12 m ∧ Digits12 sec ∧ Digits12 f
      ∧ IsSep sep ∧ s = h ++ ':' :: (m ++ ':' :: (sec ++ sep :: f)) := by
  constructor
  · intro hv
    rcases parseSmpte_cases s with ⟨-, hp⟩ | ⟨d1, d2, d3, d4, sep, h1, h2, h3, h4, hsep, hs, -, -⟩
    · simp [IsValid, hp] at hv
    · exact ⟨d1, d2, d3, d4, sep, h1, h2, h3, h4, hsep, hs⟩
  · rintro ⟨h, m, sec, f, sep, h1, h2, h3, h4, hsep, rfl⟩
    simp [IsValid, parseSmpte_of_parts h m sec f sep h1 h2 h3 h4 hsep]

theorem IsValid_iff_MatchesGrammar (s : GoString) : IsValid s = true ↔ MatchesGrammar s := by
  rw [MatchesGrammar_iff]
  cases hp : parseSmpte s <;> simp [IsValid, hp]

/-- Every character of an accepted text is an ASCII digit or a separator. -/
theorem IsValid_chars (s : GoString) (hv : IsValid s = true) (c : Char) (hc : c ∈ s) :
    isAsciiDigit c = true ∨ IsSep c := by
  obtain ⟨h, m, sec, f, sep, h1, h2, h3, h4, hsep, rfl⟩ := (IsValid_iff_parts s).1 hv
  simp only [List.mem_append, List.mem_cons] at hc
  rcases hc with hc | rfl | hc | rfl | hc | rfl | hc
  · exact Or.inl (h1.2 c hc)
  · exact Or.inr (Or.inl rfl)
  · exact Or.inl (h2.2 c hc)
  · exact Or.inr (Or.inl rfl)
  · exact Or.inl (h3.2 c hc)
  · exact Or.inr hsep
  · exact Or.inl (h4.2 c hc)

theorem IsValid_false_of_char (s : GoString) (c : Char) (hc : c ∈ s)
    (hd : isAsciiDigit c = false) (hsep : ¬ IsSep c) : IsValid s = false := by
  cases hv : IsValid s with
  | false => rfl
  | true =>
    rcases IsValid_chars s hv c hc with h | h
    · rw [hd] at h
      cases h
    · exact absurd h hsep

/-- A text splits in one way only at its first character that is no digit. -/
theorem digits_split_unique (a b r1 r2 : GoString) (x y : Char)
    (ha : ∀ c ∈ a, isAsciiDigit c = true) (hb : ∀ c ∈ b, isAsciiDigit c = true)
    (hx : isAsciiDigit x = false) (hy : isAsciiDigit y = false)
    (h : a ++ x :: r1 = b ++ y :: r2) : a = b ∧ x = y ∧ r1 = r2 := by
  induction a generalizing b with
  | nil =>
    rcases b with _ | ⟨c, b⟩
    · simp only [List.nil_append, List.cons.injEq] at h
      exact ⟨rfl, h.1, h.2⟩
    · simp only [List.nil_append, List.cons_append, List.cons.injEq] at h
      have := hb c (by simp)
      rw [← h.1, hx] at this
      cases this
  | cons c a ih =>
    rcases b with _ | ⟨d, b⟩
    · simp only [List.nil_append, List.cons_append, List.cons.injEq] at h
      have := ha c (by simp)
      rw [h.1, hy] at this
      cases this
    · simp only [List.cons_append, List.cons.injEq] at h
      obtain ⟨e1, e2, e3⟩ := ih b (fun c hc => ha c (by simp [hc]))
        (fun c hc => hb c (by simp [hc])) h.2
      exact ⟨by rw [h.1, e1], e2, e3⟩

theorem IsSep_not_digit {c : Char} (h : IsSep c) : isAsciiDigit c = false := by
  rcases h with rfl | rfl | rfl <;> decide

/-- An accepted text whose four fields are digit strings has fields of one
or two digits. -/
theorem IsValid_fields (h m sec f : GoString) (sep : Char)
    (dh : ∀ c ∈ h, isAsciiDigit c = true) (dm : ∀ c ∈ m, isAsciiDigit c = true)
    (ds : ∀ c ∈ sec, isAsciiDigit c = true) (hsep : IsSep sep)
    (hv : IsValid (h ++ ':' :: (m ++ ':' :: (sec ++ sep :: f))) = true) :
    Digits12 h ∧ Digits12 m ∧ Digits12 sec ∧ Digits12 f := by
  obtain ⟨hx, mx, sx, fx, sepx, h1, h2, h3, h4, hsepx, e⟩ := (IsValid_iff_parts _).1 hv
  have hc : isAsciiDigit ':' = false := by decide
  obtain ⟨e1, -, e⟩ := digits_split_unique h hx _ _ ':' ':' dh h1.2 hc hc e
  obtain ⟨e2, -, e⟩ := digits_split_unique m mx _ _ ':' ':' dm h2.2 hc hc e
  obtain ⟨e3, -, e4⟩ := digits_split_unique sec sx _ _ sep sepx ds h3.2
    (IsSep_not_digit hsep) (IsSep_not_digit hsepx) e
  subst e1 e2 e3 e4
  exact ⟨h1, h2, h3, h4⟩


/-- C14: text validity is exactly grammar membership.  For every string s,
IsValid(s) is true if and only if s consists of exactly 1-2 ASCII digits,
':', 1-2 digits, ':', 1-2 digits, one of ':' ';' '.', 1-2 digits, with
nothing before or after (which is when the regular expression matches).
In particular a string with any character that is neither an ASCII digit
nor a separator is rejected, so every string with leading or trailing
whitespace, a trailing newline or a sign is; a text of four digit fields is
accepted only when each field has one or two digits; and for a string that
matches, parseSmpte returns a tuple, so its integer-conversion error branch
is never reached and its only error is "invalid value". -/
theorem C14_text_validity (s : GoString) :
    (IsValid s = true ↔ ∃ h m sec f sep, Digits12 h ∧ Digits12 m ∧ Digits12 sec ∧ Digits12 f
        ∧ IsSep sep ∧ s = h ++ ':' :: (m ++ ':' :: (sec ++ sep :: f)))
    ∧ (IsValid s = true ↔ MatchesGrammar s)
    ∧ (∀ c ∈ s, isAsciiDigit c = false → ¬ IsSep c → IsValid s = false)
    ∧ (IsValid (' ' :: s) = false ∧ IsValid (s ++ [' ']) = false
        ∧ IsValid ('\t' :: s) = false ∧ IsValid (s ++ ['\t']) = false
        ∧ IsValid (s ++ ['\n']) = false
        ∧ IsValid ('-' :: s) = false ∧ IsValid ('+' :: s) = false)
    ∧ (∀ h m sec f sep, (∀ c ∈ h, isAsciiDigit c = true) → (∀ c ∈ m, isAsciiDigit c = true)
        → (∀ c ∈ sec, isAsciiDigit c = true) → (∀ c ∈ f, isAsciiDigit c = true) → IsSep sep
        → s = h ++ ':' :: (m ++ ':' :: (sec ++ sep :: f))
        → (3 ≤ h.length ∨ 3 ≤ m.length ∨ 3 ≤ sec.length ∨ 3 ≤ f.length)
        → IsValid s = false)
    ∧ (MatchesGrammar s → ∃ tm, parseSmpte s = .ok tm)
    ∧ (∀ e, parseSmpte s = .error e → e = GoError.errorsNew "invalid value")
    ∧ (IsValid " 01:02:03:04".toList = false ∧ IsValid "01:02:03:04\n".toList = false
        ∧ IsValid "-1:02:03:04".toList = false ∧ IsValid "001:02:03:04".toList = false
        ∧ IsValid "01:02:03:04".toList = true) := by
  refine ⟨IsValid_iff_parts s, IsValid_iff_MatchesGrammar s,
    fun c hc hd hsep => IsValid_false_of_char s c hc hd hsep, ⟨?_, ?_, ?_, ?_, ?_, ?_, ?_⟩, ?_,
    (MatchesGrammar_iff s).1, fun e he => parseSmpte_error_eq s e he,
    ⟨by rfl, by rfl, by rfl, by rfl, by rfl⟩⟩
  · exact IsValid_false_of_char _ ' ' (by simp) (by decide) (by unfold IsSep; decide)
  · exact IsValid_false_of_char _ ' ' (by simp) (by decide) (by unfold IsSep; decide)
  · exact IsValid_false_of_char _ '\t' (by simp) (by decide) (by unfold IsSep; decide)
  · exact IsValid_false_of_char _ '\t' (by simp) (by decide) (by unfold IsSep; decide)
  · exact IsValid_false_of_char _ '\n' (by simp) (by decide) (by unfold IsSep; decide)
  · exact IsValid_false_of_char _ '-' (by simp) (by decide) (by unfold IsSep; decide)
  · exact IsValid_false_of_char _ '+' (by simp) (by decide) (by unfold IsSep; decide)
  · intro h m sec f sep dh dm ds df hsep hs hlen
    cases hv : IsValid s with
    | false => rfl
    | true =>
      rw [hs] at hv
      obtain ⟨⟨l1, -⟩, ⟨l2, -⟩, ⟨l3, -⟩, l4, -⟩ := IsValid_fields h m sec f sep dh dm ds hsep hv
      omega

/-- The verb `%02d` prints exactly two ASCII digits for a value in 0..99. -/
theorem fmt02d_two (x : Int) (h0 : 0 ≤ x) (h1 : x ≤ 99) :
    ∃ a b, fmt02d x = [a, b] ∧ isAsciiDigit a = true ∧ isAsciiDigit b = true := by
  obtain ⟨n, rfl⟩ := Int.eq_ofNat_of_zero_le h0
  have hn : n < 100 := by omega
  have h := fmt02dReadsBack_all ⟨n, hn⟩
  simp only [fmt02dReadsBack, Bool.and_eq_true, beq_iff_eq, List.all_eq_true] at h
  obtain ⟨⟨hlen, hdig⟩, -⟩ := h
  rcases hf : fmt02d (n : Int) with _ | ⟨a, _ | ⟨b, _ | ⟨c, t⟩⟩⟩
  · rw [hf] at hlen; simp at hlen
  · rw [hf] at hlen; simp at hlen
  · rw [hf] at hdig
    exact ⟨a, b, rfl, hdig a (by simp), hdig b (by simp)⟩
  · rw [hf] at hlen; simp at hlen

/-- C15: output format.  For each of the six rates and every n with
0 <= n < framesPerDay(rate), FormatString(n, rate) is a string of exactly
11 characters DD:DD:DDxDD where each D is a decimal digit, positions 2 and
5 are ':', and the separator x at position 8 is ';' for SMPTE2997DROP and
':' for the other five rates. -/
theorem C15_output_format (n : Int) (frameRate : FrameRate) (hs : Supported frameRate)
    (h0 : 0 ≤ n) (h1 : n < framesPerDay frameRate) :
    ∃ a b c d e f g h x,
      FormatString n frameRate = [a, b, ':', c, d, ':', e, f, x, g, h]
      ∧ (FormatString n frameRate).length = 11
      ∧ (isAsciiDigit a = true ∧ isAsciiDigit b = true ∧ isAsciiDigit c = true
          ∧ isAsciiDigit d = true ∧ isAsciiDigit e = true ∧ isAsciiDigit f = true
          ∧ isAsciiDigit g = true ∧ isAsciiDigit h = true)
      ∧ (frameRate = SMPTE2997DROP → x = ';')
      ∧ (frameRate ≠ SMPTE2997DROP → x = ':') := by
  obtain ⟨tc, htc, hv, -⟩ := linearize_formatFields n frameRate hs h0 h1
  have hr := (IsValid_iff tc frameRate hs).1 hv
  have hmax : maxFrame frameRate ≤ 29 := by
    rcases hs with h | h | h | h | h | h <;> subst h <;>
      simp [maxFrame, SMPTE30, SMPTE2997NONDROP, SMPTE2997DROP, SMPTE25, SMPTE24, SMPTE2398]
  obtain ⟨a, b, e1, da, db⟩ := fmt02d_two tc.hh hr.1.1 (by omega)
  obtain ⟨c, d, e2, dc, dd⟩ := fmt02d_two tc.mm hr.2.1.1 (by omega)
  obtain ⟨e, f, e3, de, df⟩ := fmt02d_two tc.ss hr.2.2.1.1 (by omega)
  obtain ⟨g, h, e4, dg, dh⟩ := fmt02d_two tc.ff hr.2.2.2.1 (by omega)
  have hF := FormatString_eq n frameRate tc htc
  rw [e1, e2, e3, e4] at hF
  refine ⟨a, b, c, d, e, f, g, h, frameSep frameRate, ?_, ?_, ⟨da, db, dc, dd, de, df, dg, dh⟩,
    ?_, ?_⟩
  · rw [hF]; rfl
  · rw [hF]; rfl
  · intro hd
    simp [frameSep, hd]
  · intro hd
    simp [frameSep, hd]

/-- Witness of C15 at the last count of a drop-frame day, printed as
23:59:59;29. -/
theorem C15_output_format_witness :
    Supported SMPTE2997DROP ∧ (0 : Int) ≤ 2589407 ∧ 2589407 < framesPerDay SMPTE2997DROP
    ∧ ∃ a b c d e f g h x,
      FormatString 2589407 SMPTE2997DROP = [a, b, ':', c, d, ':', e, f, x, g, h]
      ∧ (FormatString 2589407 SMPTE2997DROP).length = 11
      ∧ (isAsciiDigit a = true ∧ isAsciiDigit b = true ∧ isAsciiDigit c = true
          ∧ isAsciiDigit d = true ∧ isAsciiDigit e = true ∧ isAsciiDigit f = true
          ∧ isAsciiDigit g = true ∧ isAsciiDigit h = true)
      ∧ (SMPTE2997DROP = SMPTE2997DROP → x = ';')
      ∧ (SMPTE2997DROP ≠ SMPTE2997DROP → x = ':') :=
  ⟨Or.inr (Or.inr (Or.inr (Or.inl rfl))), by decide, by decide,
    C15_output_format 2589407 SMPTE2997DROP (Or.inr (Or.inr (Or.inr (Or.inl rfl))))
      (by decide) (by decide)⟩

/-- C16: duplicate rate families are interchangeable.  For every string s,
every pair of strings in, out, every integer n and every tuple tm, ParseInt,
ParseTimeCode, ParseDuration, FormatString and tm.IsValid give identical
results (value and error) at SMPTE2398 and at SMPTE24, and identical
results at SMPTE2997NONDROP and at SMPTE30. -/
theorem C16_duplicate_families (s inText outText : GoString) (n : Int) (tm : TimeCode) :
    (ParseInt s SMPTE2398 = ParseInt s SMPTE24
      ∧ ParseTimeCode s SMPTE2398 = ParseTimeCode s SMPTE24
      ∧ ParseDuration inText outText SMPTE2398 = ParseDuration inText outText SMPTE24
      ∧ FormatString n SMPTE2398 = FormatString n SMPTE24
      ∧ tm.IsValid SMPTE2398 = tm.IsValid SMPTE24)
    ∧ (ParseInt s SMPTE2997NONDROP = ParseInt s SMPTE30
      ∧ ParseTimeCode s SMPTE2997NONDROP = ParseTimeCode s SMPTE30
      ∧ ParseDuration inText outText SMPTE2997NONDROP = ParseDuration inText outText SMPTE30
      ∧ FormatString n SMPTE2997NONDROP = FormatString n SMPTE30
      ∧ tm.IsValid SMPTE2997NONDROP = tm.IsValid SMPTE30) := by
  have v1 : ∀ t : TimeCode, t.IsValid SMPTE2398 = t.IsValid SMPTE24 := fun t => rfl
  have v2 : ∀ t : TimeCode, t.IsValid SMPTE2997NONDROP = t.IsValid SMPTE30 := fun t => rfl
  refine ⟨⟨?_, ?_, ?_, rfl, v1 tm⟩, ⟨?_, ?_, ?_, rfl, v2 tm⟩⟩
  · cases hp : parseSmpte s with
    | error e => simp [ParseInt, hp]
    | ok t => simp only [ParseInt, hp]; rfl
  · cases hp : parseSmpte s with
    | error e => simp [ParseTimeCode, parseTimeCode, hp]
    | ok t => simp only [ParseTimeCode, parseTimeCode, hp, v1 t]
  · cases hi : parseSmpte inText with
    | error e => simp [ParseDuration, hi]
    | ok ti =>
      cases ho : parseSmpte outText with
      | error e => simp [ParseDuration, hi, ho]
      | ok tj => simp only [ParseDuration, hi, ho]; rfl
  · cases hp : parseSmpte s with
    | error e => simp [ParseInt, hp]
    | ok t => simp only [ParseInt, hp]; rfl
  · cases hp : parseSmpte s with
    | error e => simp [ParseTimeCode, parseTimeCode, hp]
    | ok t => simp only [ParseTimeCode, parseTimeCode, hp, v2 t]
  · cases hi : parseSmpte inText with
    | error e => simp [ParseDuration, hi]
    | ok ti =>
      cases ho : parseSmpte outText with
      | error e => simp [ParseDuration, hi, ho]
      | ok tj =>
        have l2 : ∀ t : TimeCode, linearize t SMPTE2997NONDROP = linearize t SMPTE30 :=
          fun t => rfl
        have f2 : framesPerDay SMPTE2997NONDROP = framesPerDay SMPTE30 := rfl
        rw [ParseDuration_of_ok _ _ ti tj _ hi ho (Or.inr (Or.inr (Or.inr (Or.inr (Or.inl rfl))))),
          ParseDuration_of_ok _ _ ti tj _ hi ho (Or.inr (Or.inr (Or.inr (Or.inr (Or.inr rfl))))),
          v2 ti, v2 tj, l2 ti, l2 tj, f2]

/-- C17: drop-frame linearization equals the SMPTE reference.  For every
tuple (hh, mm, ss, ff) valid for SMPTE2997DROP, with ff2 = 2 if
(mm % 10 != 0 and ss = 0 and ff < 2) and ff2 = ff otherwise,
ParseIntSmpte2997Drop returns (ff2 + 30*ss + 1800*mm + 108000*hh)
- 2*(T - T/10) where T = 60*hh + mm, which is the same as
ff2 + 30*ss + 1798*mm + 2*(mm/10) + 107892*hh. -/
theorem C17_drop_reference (tm : TimeCode) (hv : tm.IsValid SMPTE2997DROP = true) :
    tm.ParseIntSmpte2997Drop
      = ((if tm.mm % 10 ≠ 0 ∧ tm.ss = 0 ∧ tm.ff < 2 then 2 else tm.ff)
          + 30 * tm.ss + 1800 * tm.mm + 108000 * tm.hh)
        - 2 * ((60 * tm.hh + tm.mm) - (60 * tm.hh + tm.mm) / 10)
    ∧ tm.ParseIntSmpte2997Drop
      = (if tm.mm % 10 ≠ 0 ∧ tm.ss = 0 ∧ tm.ff < 2 then 2 else tm.ff)
          + 30 * tm.ss + 1798 * tm.mm + 2 * (tm.mm / 10) + 107892 * tm.hh := by
  have hs : Supported SMPTE2997DROP := Or.inr (Or.inr (Or.inr (Or.inl rfl)))
  have hr := (IsValid_iff tm _ hs).1 hv
  have hmax : maxFrame SMPTE2997DROP = 29 := by decide
  rw [hmax] at hr
  obtain ⟨⟨h1, h2⟩, ⟨m1, m2⟩, ⟨s1, s2⟩, f1, f2⟩ := hr
  have hd := drop_linearize_eq tm m1
  have hcond : (tm.mm % 10 ≠ 0 ∧ tm.ss = 0 ∧ (tm.ff = 0 ∨ tm.ff = 1))
      ↔ (tm.mm % 10 ≠ 0 ∧ tm.ss = 0 ∧ tm.ff < 2) := by
    constructor
    · rintro ⟨a, b, c⟩
      exact ⟨a, b, by omega⟩
    · rintro ⟨a, b, c⟩
      exact ⟨a, b, by omega⟩
  simp only [hcond] at hd
  refine ⟨?_, ?_⟩
  · rw [hd]
    split <;> omega
  · rw [hd]
    split <;> omega

/-- Witness of C17 at the skipped label (1, 1, 0, 0): the 30 fps count
109800 minus two frames for each of the 55 elapsed minutes that are no
multiple of ten, plus the two skipped labels. -/
theorem C17_drop_reference_witness :
    (TimeCode.mk 1 1 0 0).IsValid SMPTE2997DROP = true
    ∧ (TimeCode.mk 1 1 0 0).ParseIntSmpte2997Drop
        = ((2 : Int) + 30 * 0 + 1800 * 1 + 108000 * 1) - 2 * ((60 * 1 + 1) - (60 * 1 + 1) / 10) :=
  ⟨by decide, (C17_drop_reference (TimeCode.mk 1 1 0 0) (by decide)).1⟩

/-- C18: drop-frame delinearization never emits a skipped label.  For every
n with 0 <= n < 2589408, the fields (hours, minutes, seconds, frames) that
formatTimeCodeSmpte2997Drop(n) computes form a tuple valid for
SMPTE2997DROP (hours 0-23, minutes 0-59, seconds 0-59, frames 0-29) and
never satisfy (minutes % 10 != 0 and seconds = 0 and frames < 2). -/
theorem C18_drop_no_skipped_label (n : Int) (h0 : 0 ≤ n) (h1 : n < 2589408) :
    (fieldsSmpte2997Drop n).IsValid SMPTE2997DROP = true
    ∧ (fieldsSmpte2997Drop n).IsValidSmpte2997Drop = true
    ∧ ((0 ≤ (fieldsSmpte2997Drop n).hh ∧ (fieldsSmpte2997Drop n).hh ≤ 23)
      ∧ (0 ≤ (fieldsSmpte2997Drop n).mm ∧ (fieldsSmpte2997Drop n).mm ≤ 59)
      ∧ (0 ≤ (fieldsSmpte2997Drop n).ss ∧ (fieldsSmpte2997Drop n).ss ≤ 59)
      ∧ (0 ≤ (fieldsSmpte2997Drop n).ff ∧ (fieldsSmpte2997Drop n).ff ≤ 29))
    ∧ ¬ (goMod (fieldsSmpte2997Drop n).mm 10 ≠ 0 ∧ (fieldsSmpte2997Drop n).ss = 0
          ∧ (fieldsSmpte2997Drop n).ff < 2)
    ∧ formatTimeCodeSmpte2997Drop n
        = fmt02d (fieldsSmpte2997Drop n).hh ++ ':' :: fmt02d (fieldsSmpte2997Drop n).mm
            ++ ':' :: fmt02d (fieldsSmpte2997Drop n).ss
            ++ ';' :: fmt02d (fieldsSmpte2997Drop n).ff := by
  obtain ⟨a1, a2, b1, b2, c1, c2, d1, d2, hskip, -⟩ := fieldsSmpte2997Drop_spec n h0 h1
  have hs : Supported SMPTE2997DROP := Or.inr (Or.inr (Or.inr (Or.inl rfl)))
  have hmax : maxFrame SMPTE2997DROP = 29 := by decide
  have hv : (fieldsSmpte2997Drop n).IsValid SMPTE2997DROP = true := by
    rw [IsValid_iff _ _ hs, hmax]
    exact ⟨⟨a1, a2⟩, ⟨b1, b2⟩, ⟨c1, c2⟩, d1, d2⟩
  refine ⟨hv, ?_, ⟨⟨a1, a2⟩, ⟨b1, b2⟩, ⟨c1, c2⟩, d1, d2⟩, ?_, rfl⟩
  · simpa [TimeCode.IsValid, SMPTE2997DROP, SMPTE25, SMPTE24, SMPTE2398] using hv
  · rw [goMod_eq b1 (by norm_num)]
    exact hskip

/-- Witness of C18 at the count 1800, the first frame of minute 1, which
carries the label 00:01:00;02. -/
theorem C18_drop_no_skipped_label_witness :
    (0 : Int) ≤ 1800 ∧ (1800 : Int) < 2589408
    ∧ fieldsSmpte2997Drop 1800 = TimeCode.mk 0 1 0 2
    ∧ (fieldsSmpte2997Drop 1800).IsValid SMPTE2997DROP = true :=
  ⟨by decide, by decide, by rfl, (C18_drop_no_skipped_label 1800 (by decide) (by decide)).1⟩

/-- C19: linearized values lie within one day.  For every tuple valid for a
rate (hence for each of the six rates), the linearization of the rate
returns v with 0 <= v < framesPerDay(rate), so that v % framesPerDay(rate)
= v, which is the reduction of outVal in the parseDurationSmpte function of
the rate; the frames per day are 2073600, 2073600, 2160000, 2589408,
2592000, 2592000 and the largest valid tuple 23:59:59:maxFrame(rate) gives
exactly framesPerDay(rate) - 1. -/
theorem C19_linearized_within_day (tm : TimeCode) (frameRate : FrameRate)
    (hv : tm.IsValid frameRate = true) :
    (0 ≤ linearize tm frameRate ∧ linearize tm frameRate < framesPerDay frameRate)
    ∧ goMod (linearize tm frameRate) (framesPerDay frameRate) = linearize tm frameRate
    ∧ (linearize tm SMPTE2398 = tm.ParseIntSmpte2398 ∧ framesPerDay SMPTE2398 = 2073600
      ∧ linearize tm SMPTE24 = tm.ParseIntSmpte24 ∧ framesPerDay SMPTE24 = 2073600
      ∧ linearize tm SMPTE25 = tm.ParseIntSmpte25 ∧ framesPerDay SMPTE25 = 2160000
      ∧ linearize tm SMPTE2997DROP = tm.ParseIntSmpte2997Drop
      ∧ framesPerDay SMPTE2997DROP = 2589408
      ∧ linearize tm SMPTE2997NONDROP = tm.ParseIntSmpte2997NonDrop
      ∧ framesPerDay SMPTE2997NONDROP = 2592000
      ∧ linearize tm SMPTE30 = tm.ParseIntSmpte30 ∧ framesPerDay SMPTE30 = 2592000)
    ∧ ((TimeCode.mk 23 59 59 23).ParseIntSmpte2398 = 2073600 - 1
      ∧ (TimeCode.mk 23 59 59 23).ParseIntSmpte24 = 2073600 - 1
      ∧ (TimeCode.mk 23 59 59 24).ParseIntSmpte25 = 2160000 - 1
      ∧ (TimeCode.mk 23 59 59 29).ParseIntSmpte2997Drop = 2589408 - 1
      ∧ (TimeCode.mk 23 59 59 29).ParseIntSmpte2997NonDrop = 2592000 - 1
      ∧ (TimeCode.mk 23 59 59 29).ParseIntSmpte30 = 2592000 - 1) := by
  obtain ⟨b0, b1⟩ := linearize_bounds tm frameRate hv
  refine ⟨⟨b0, b1⟩, ?_, ⟨rfl, rfl, rfl, rfl, rfl, rfl, rfl, rfl, rfl, rfl, rfl, rfl⟩,
    ⟨by decide, by decide, by decide, by decide, by decide, by decide⟩⟩
  rw [goMod_eq b0 (by omega)]
  exact Int.emod_eq_of_lt b0 b1

/-- Witness of C19 at the largest tuple of the drop-frame rate. -/
theorem C19_linearized_within_day_witness :
    (TimeCode.mk 23 59 59 29).IsValid SMPTE2997DROP = true
    ∧ (0 ≤ linearize (TimeCode.mk 23 59 59 29) SMPTE2997DROP
        ∧ linearize (TimeCode.mk 23 59 59 29) SMPTE2997DROP < framesPerDay SMPTE2997DROP) :=
  ⟨by decide, (C19_linearized_within_day (TimeCode.mk 23 59 59 29) SMPTE2997DROP (by decide)).1⟩

/-! ### Day periodicity of the non-drop fields -/

theorem fieldsSmpte2398_mod (n : Int) (h0 : 0 ≤ n) :
    fieldsSmpte2398 (n % 2073600) = fieldsSmpte2398 n := by
  rw [fieldsSmpte2398_eq n h0, fieldsSmpte2398_eq _ (by omega), TimeCode.mk.injEq]
  refine ⟨?_, ?_, ?_, ?_⟩ <;> omega

theorem fieldsSmpte25_mod (n : Int) (h0 : 0 ≤ n) :
    fieldsSmpte25 (n % 2160000) = fieldsSmpte25 n := by
  rw [fieldsSmpte25_eq n h0, fieldsSmpte25_eq _ (by omega), TimeCode.mk.injEq]
  refine ⟨?_, ?_, ?_, ?_⟩ <;> omega

theorem fieldsSmpte30_mod (n : Int) (h0 : 0 ≤ n) :
    fieldsSmpte30 (n % 2592000) = fieldsSmpte30 n := by
  rw [fieldsSmpte30_eq n h0, fieldsSmpte30_eq _ (by omega), TimeCode.mk.injEq]
  refine ⟨?_, ?_, ?_, ?_⟩ <;> omega

/-- The formatted tuple of a non-negative count, at a non-drop rate, is the
one of the count reduced modulo the frames per day. -/
theorem formatFields_mod (n : Int) (frameRate : FrameRate) (hs : Supported frameRate)
    (hnd : frameRate ≠ SMPTE2997DROP) (h0 : 0 ≤ n) :
    formatFields (n % framesPerDay frameRate) frameRate = formatFields n frameRate := by
  rcases hs with h | h | h | h | h | h <;> subst h
  · simp [formatFields, framesPerDay, fieldsSmpte2398_mod n h0]
  · simp [formatFields, framesPerDay, SMPTE24, SMPTE2398, fieldsSmpte24_eq_2398,
      fieldsSmpte2398_mod n h0]
  · simp [formatFields, framesPerDay, SMPTE25, SMPTE24, SMPTE2398, fieldsSmpte25_mod n h0]
  · exact absurd rfl hnd
  · simp [formatFields, framesPerDay, SMPTE2997NONDROP, SMPTE2997DROP, SMPTE25, SMPTE24,
      SMPTE2398, fieldsSmpte2997NonDrop_eq_30, fieldsSmpte30_mod n h0]
  · simp [formatFields, framesPerDay, SMPTE30, SMPTE2997NONDROP, SMPTE2997DROP, SMPTE25, SMPTE24,
      SMPTE2398, fieldsSmpte30_mod n h0]

theorem formatFields_isSome (n : Int) (frameRate : FrameRate) (hs : Supported frameRate) :
    ∃ tc, formatFields n frameRate = some tc := by
  rcases hs with h | h | h | h | h | h <;> subst h <;>
    simp [formatFields, SMPTE30, SMPTE2997NONDROP, SMPTE2997DROP, SMPTE25, SMPTE24, SMPTE2398]

theorem FormatString_congr (n k : Int) (frameRate : FrameRate) (hs : Supported frameRate)
    (h : formatFields n frameRate = formatFields k frameRate) :
    FormatString n frameRate = FormatString k frameRate := by
  obtain ⟨tc, htc⟩ := formatFields_isSome n frameRate hs
  rw [FormatString_eq n frameRate tc htc, FormatString_eq k frameRate tc (h ▸ htc)]

/-- C20: day periodicity of non-drop delinearization.  For each of the five
non-drop rates and every integer n >= 0, FormatString(n + framesPerDay(rate),
rate) = FormatString(n, rate), and FormatString(n, rate) =
FormatString(n mod framesPerDay(rate), rate). -/
theorem C20_day_periodicity (n : Int) (frameRate : FrameRate) (hs : Supported frameRate)
    (hnd : frameRate ≠ SMPTE2997DROP) (h0 : 0 ≤ n) :
    FormatString (n + framesPerDay frameRate) frameRate = FormatString n frameRate
    ∧ FormatString n frameRate = FormatString (n % framesPerDay frameRate) frameRate := by
  have hF : 0 < framesPerDay frameRate := by
    rcases hs with h | h | h | h | h | h <;> subst h <;> decide
  have e1 := formatFields_mod n frameRate hs hnd h0
  have e2 := formatFields_mod (n + framesPerDay frameRate) frameRate hs hnd (by omega)
  rw [Int.add_emod_self] at e2
  exact ⟨FormatString_congr _ _ _ hs (e2.symm.trans e1), FormatString_congr _ _ _ hs e1.symm⟩

/-- Witness of C20 at SMPTE25 and the count 2159999, the last of a day. -/
theorem C20_day_periodicity_witness :
    Supported SMPTE25 ∧ SMPTE25 ≠ SMPTE2997DROP ∧ (0 : Int) ≤ 2159999
    ∧ FormatString (2159999 + framesPerDay SMPTE25) SMPTE25 = FormatString 2159999 SMPTE25
    ∧ FormatString 2159999 SMPTE25 = "23:59:59:24".toList :=
  ⟨Or.inr (Or.inr (Or.inl rfl)), by decide, by decide,
    (C20_day_periodicity 2159999 SMPTE25 (Or.inr (Or.inr (Or.inl rfl))) (by decide)
      (by decide)).1, by rfl⟩

end Timecode
